import Mathlib

/-!
Shallow embedding of the Razer battery-indicator protocol engine
(`razer_common.py`): report construction and checksum, response
validation, the interface-ordering / retry / diagnostics logic of
`send_and_receive_report`, the battery / charging query wrappers, and
HID device discovery (`scan_razer_devices`).

Python byte strings and HID responses are modelled as `List Nat`
(each element a byte value), Python integers as `Int`, Python `dict`
fields that may be absent as `Option`, raised exceptions as `Except`,
and the HID device I/O as an explicit behaviour oracle giving the
outcome of each open/send/read attempt.
-/

namespace Razer



/-- Status codes (`RAZER_STATUS_*` constants in the source). -/
def RAZER_STATUS_NEW : Nat := 0x00

def RAZER_STATUS_BUSY : Nat := 0x01

def RAZER_STATUS_SUCCESS : Nat := 0x02

def RAZER_STATUS_FAILURE : Nat := 0x03

def RAZER_STATUS_TIMEOUT : Nat := 0x04

def RAZER_STATUS_NOT_SUPPORTED : Nat := 0x05

def REPORT_LEN : Nat := 90

/-- Python `calculate_crc(report_data)`: XOR of bytes at indices 2..87 that are
inside the buffer (`for i in range(2, 88): if i < len: crc ^= data[i]`). -/
def calculate_crc (report_data : List Nat) : Nat :=
  (List.range' 2 86).foldl
    (fun crc i => if i < report_data.length then Nat.xor crc (report_data.getD i 0) else crc) 0

/-- Python slice assignment `l[i:i+len(vs)] = vs` (used as
`report[8:8+arg_len] = arg_bytes[:arg_len]` in the source). -/
def writeBytes (l : List Nat) (i : Nat) (vs : List Nat) : List Nat :=
  match vs with
  | [] => l
  | v :: rest => writeBytes (l.set i v) (i + 1) rest

/-- Python `construct_razer_report(transaction_id, command_class, command_id, data_size, arguments)`.
`ValueError` is modelled as `Except.error`; `x & 0xFF` on a Python int is `x % 256`
(`Int.emod`, non-negative); `bytes(arguments)` fails exactly when some argument is
outside 0..255. -/
def construct_razer_report (transaction_id command_class command_id data_size : Int)
    (arguments : List Int) : Except String (List Nat) :=
  if arguments.length > 80 then
    .error "Arguments list too long (max 80 bytes)"
  else if arguments.any (fun a => decide (a < 0) || decide (255 < a)) then
    .error "Arguments must be byte-like integers (0-255)"
  else
    let arg_bytes : List Nat := arguments.map Int.toNat
    let report0 := List.replicate REPORT_LEN 0
    let report1 := report0.set 0 0x00
    let report2 := report1.set 1 ((transaction_id % 256).toNat)
    let report3 := report2.set 2 0x00
    let report4 := report3.set 3 0x00
    let report5 := report4.set 4 0x00
    let report6 := report5.set 5 ((data_size % 256).toNat)
    let report7 := report6.set 6 ((command_class % 256).toNat)
    let report8 := report7.set 7 ((command_id % 256).toNat)
    let arg_len := min arguments.length 80
    let report9 := writeBytes report8 8 (arg_bytes.take arg_len)
    let report10 := report9.set 88 (calculate_crc report9)
    let report11 := report10.set 89 0x00
    .ok report11

/-- Python `validate_response(response, command_desc)`.  `None` and the empty list are
falsy in Python, and any response of 9 or fewer bytes is rejected; the status
byte is read at index 1 (after the report-ID prefix byte).  The CRC check that
follows the status dispatch in the source only logs a warning and never changes
the returned value, so it does not appear in the result. -/
def validate_response (response : Option (List Nat)) : Bool :=
  match response with
  | none => false
  | some resp =>
    if resp.length ≤ 9 then false
    else
      let status := if 1 < resp.length then resp.getD 1 0 else 0xFF
      if status = RAZER_STATUS_SUCCESS then true
      else if status = RAZER_STATUS_BUSY then false
      else if status = RAZER_STATUS_FAILURE ∨ status = RAZER_STATUS_TIMEOUT
              ∨ status = RAZER_STATUS_NOT_SUPPORTED then false
      else true

/-- The CRC recomputation done (for logging only) by `validate_response` on a
response of at least 90 bytes: XOR over indices 3..88 (bytes 2..87 of the
report, shifted by the report-ID prefix), compared against index 89. -/
def response_crc_mismatch (resp : List Nat) : Bool :=
  if 90 ≤ resp.length then
    decide ((List.range' 3 86).foldl (fun c i => Nat.xor c (resp.getD i 0)) 0 ≠ resp.getD 89 0)
  else false

/-- The first 88 bytes of the report built by `construct_razer_report`: the
8-byte header, the argument bytes, then zero padding up to byte 87. -/
def reportBody (transaction_id command_class command_id data_size : Int)
    (arguments : List Int) : List Nat :=
  0 :: (transaction_id % 256).toNat :: 0 :: 0 :: 0 :: (data_size % 256).toNat ::
    (command_class % 256).toNat :: (command_id % 256).toNat ::
    (arguments.map Int.toNat ++ List.replicate (80 - arguments.length) 0)

/-! ## Transport: `send_and_receive_report` -/

/-- One HID interface entry of a device descriptor: `{'path': ..,
'interface_number': ..}`.  The interface number is optional because the dict
key may be absent (`iface.get('interface_number', ...)` in the source);
discovery always stores it, recording an unknown number as -1. -/
structure Interface where
  path : String
  interface_number : Option Int
deriving Repr, DecidableEq

/-- A device descriptor dict.  Fields that the source reads with `.get` or
creates only on first write are `Option`s. -/
structure Descriptor where
  name : String := ""
  pid : Int := 0
  devType : String := ""
  transaction_id : Option Int := none
  interfaces : List Interface := []
  preferred_interface_path : Option String := none
  diag_last_ok : Option Bool := none
  diag_last_command : Option String := none
  diag_last_interface : Option Int := none
  diag_last_attempted_interfaces : Option (List Int) := none
  diag_last_io_errors : Option (List String) := none
  diag_last_open_failed_count : Option Nat := none
deriving Repr, DecidableEq

/-- The Python sort key
`(0 if preferred and path == preferred else 1, 0 if num == 0 else 1, num-or-999)`
where `num` is `iface.get('interface_number', -1)` in the second component and
`iface.get('interface_number', 999)` in the third. -/
def ifaceSortKey (preferred_path : Option String) (iface : Interface) : Nat × Nat × Int :=
  ((match preferred_path with
    | some p => if iface.path = p then 0 else 1
    | none => 1),
   (if iface.interface_number.getD (-1) = 0 then 0 else 1),
   iface.interface_number.getD 999)

/-- Lexicographic comparison of sort keys, as Python compares tuples. -/
def keyLe (a b : Nat × Nat × Int) : Prop :=
  a.1 < b.1 ∨ (a.1 = b.1 ∧ (a.2.1 < b.2.1 ∨ (a.2.1 = b.2.1 ∧ a.2.2 ≤ b.2.2)))

instance : DecidableRel keyLe := fun a b => by
  unfold keyLe
  infer_instance

def ifaceLe (preferred_path : Option String) (a b : Interface) : Prop :=
  keyLe (ifaceSortKey preferred_path a) (ifaceSortKey preferred_path b)

instance (p : Option String) : DecidableRel (ifaceLe p) := fun a b => by
  unfold ifaceLe
  infer_instance

instance (p : Option String) : IsTotal Interface (ifaceLe p) :=
  ⟨fun a b => by unfold ifaceLe keyLe; omega⟩

instance (p : Option String) : IsTrans Interface (ifaceLe p) :=
  ⟨fun a b c hab hbc => by unfold ifaceLe keyLe at *; omega⟩

/-- Python `interfaces.sort(key=...)`: Python's sort is stable; `insertionSort` with
a total preorder is likewise stable, producing the same ordering. -/
def sortInterfaces (preferred_path : Option String) (ifaces : List Interface) : List Interface :=
  List.insertionSort (ifaceLe preferred_path) ifaces

/-- Result of one open/send/read attempt on one interface path, as seen by the
`try`/`except` dispatch of the source: a read-back response, an
`OSError`/`IOError`, a `ValueError`, or any other exception. -/
inductive Outcome where
  | response (resp : List Nat)
  | ioError (msg : String)
  | valueError (msg : String)
  | otherError (msg : String)
deriving Repr, DecidableEq

/-- The device/OS behaviour oracle: outcome of the attempt numbered
`attempt` (0 or 1) on a given path when sending `report_with_id`. -/
abbrev Behavior := List Nat → String → Nat → Outcome

/-- Mutable loop state of one exchange: `attempted_ifaces`, `io_errors`,
`open_failed_count`. -/
structure ExchangeState where
  attempted : List Int
  ioErrors : List String
  openFailed : Nat
deriving Repr, DecidableEq

/-- Python `"open failed" in msg.lower()` (`.lower()` maps each character). -/
def listStartsWith : List Char → List Char → Bool
  | [], _ => true
  | _ :: _, [] => false
  | p :: ps, c :: cs => p = c && listStartsWith ps cs

def listHasSub (pat : List Char) : List Char → Bool
  | [] => listStartsWith pat []
  | c :: cs => listStartsWith pat (c :: cs) || listHasSub pat cs

def indicatesOpenFailure (msg : String) : Bool :=
  listHasSub "open failed".data (msg.data.map Char.toLower)

/-- Append an error message; the open-failure counter is only examined in the
`OSError`/`IOError` branch of the source. -/
def recordError (ioBranch : Bool) (msg : String) (st : ExchangeState) : ExchangeState :=
  { st with
    ioErrors := st.ioErrors ++ [msg],
    openFailed := st.openFailed + (if ioBranch && indicatesOpenFailure msg then 1 else 0) }

inductive TryResult where
  | success (resp : List Nat)
  | moveNext
deriving Repr, DecidableEq

/-- Second attempt (`attempt == 1`) on one interface: any error ends the
per-interface loop; a response is validated as on the first attempt. -/
def secondTry (b : Behavior) (report_with_id : List Nat) (iface : Interface)
    (st : ExchangeState) : TryResult × ExchangeState × List (String × Nat) :=
  match b report_with_id iface.path 1 with
  | .response resp =>
    if validate_response (some resp) then
      (.success resp, st, [(iface.path, 0), (iface.path, 1)])
    else
      (.moveNext, st, [(iface.path, 0), (iface.path, 1)])
  | .ioError msg => (.moveNext, recordError true msg st, [(iface.path, 0), (iface.path, 1)])
  | .valueError msg => (.moveNext, recordError false msg st, [(iface.path, 0), (iface.path, 1)])
  | .otherError msg => (.moveNext, recordError false msg st, [(iface.path, 0), (iface.path, 1)])

/-- The `for attempt in range(2)` body for one interface.  A validated response
succeeds; an invalid response or a `ValueError` moves to the next interface
without a retry; an `OSError`/`IOError` or unexpected error is retried once on
the same interface.  The returned list records every open as (path, attempt). -/
def tryIface (b : Behavior) (report_with_id : List Nat) (iface : Interface)
    (st : ExchangeState) : TryResult × ExchangeState × List (String × Nat) :=
  match b report_with_id iface.path 0 with
  | .response resp =>
    if validate_response (some resp) then
      (.success resp, st, [(iface.path, 0)])
    else
      (.moveNext, st, [(iface.path, 0)])
  | .ioError msg => secondTry b report_with_id iface (recordError true msg st)
  | .valueError msg => (.moveNext, recordError false msg st, [(iface.path, 0)])
  | .otherError msg => secondTry b report_with_id iface (recordError false msg st)

/-- Python `io_errors[-5:]`. -/
def lastN (n : Nat) (l : List String) : List String := l.drop (l.length - n)

/-- Diagnostics stamped on the success exit (also records the preferred path). -/
def stampSuccess (dev : Descriptor) (command_desc : String) (iface : Interface)
    (st : ExchangeState) : Descriptor :=
  { dev with
    preferred_interface_path := some iface.path,
    diag_last_ok := some true,
    diag_last_command := some command_desc,
    diag_last_interface := some (iface.interface_number.getD (-1)),
    diag_last_attempted_interfaces := some st.attempted,
    diag_last_io_errors := some (lastN 5 st.ioErrors),
    diag_last_open_failed_count := some st.openFailed }

/-- Diagnostics stamped when every interface is exhausted.  Note the source
does not touch `_diag_last_interface` or the preferred path here. -/
def stampFailure (dev : Descriptor) (command_desc : String)
    (st : ExchangeState) : Descriptor :=
  { dev with
    diag_last_ok := some false,
    diag_last_command := some command_desc,
    diag_last_attempted_interfaces := some st.attempted,
    diag_last_io_errors := some (lastN 5 st.ioErrors),
    diag_last_open_failed_count := some st.openFailed }

/-- The interface loop of `send_and_receive_report`. -/
def exchangeLoop (b : Behavior) (report_with_id : List Nat) (dev : Descriptor)
    (command_desc : String) :
    List Interface → ExchangeState → Option (List Nat) × Descriptor × List (String × Nat)
  | [], st => (none, stampFailure dev command_desc st, [])
  | iface :: rest, st =>
    let st1 := { st with attempted := st.attempted ++ [iface.interface_number.getD (-1)] }
    match tryIface b report_with_id iface st1 with
    | (.success resp, st2, tr) => (some resp, stampSuccess dev command_desc iface st2, tr)
    | (.moveNext, st2, tr) =>
      let out := exchangeLoop b report_with_id dev command_desc rest st2
      (out.1, out.2.1, tr ++ out.2.2)

/-- Python `send_and_receive_report(selected_device, report, command_desc)`: returns
(the response or `none`, the updated descriptor, the list of opens performed). -/
def send_and_receive_report (b : Behavior) (selected_device : Descriptor)
    (report : List Nat) (command_desc : String) :
    Option (List Nat) × Descriptor × List (String × Nat) :=
  exchangeLoop b (0 :: report) selected_device command_desc
    (sortInterfaces selected_device.preferred_interface_path selected_device.interfaces)
    ⟨[], [], 0⟩

/-- The opens performed on one interface, determined by the behaviour alone:
one open unless the first attempt raised a retryable error. -/
def openTrace (b : Behavior) (report_with_id : List Nat) (iface : Interface) :
    List (String × Nat) :=
  match b report_with_id iface.path 0 with
  | .response _ => [(iface.path, 0)]
  | .valueError _ => [(iface.path, 0)]
  | .ioError _ => [(iface.path, 0), (iface.path, 1)]
  | .otherError _ => [(iface.path, 0), (iface.path, 1)]

/-- A 90-byte success response used by concrete scenarios. -/
def demoResp : List Nat := (List.replicate 90 0).set 1 2

/-- Interface "a" always raises an I/O error; any other path answers with a
valid success response. -/
def c5Behavior : Behavior :=
  fun _ path _ => if path = "a" then .ioError "io" else .response demoResp

def c5Device : Descriptor := { interfaces := [⟨"a", some 0⟩, ⟨"b", some 1⟩] }

/-- Every interface I/O-errors on its first attempt and answers with a valid
success response on the retry. -/
def c5RetryBehavior : Behavior :=
  fun _ _ attempt => if attempt = 0 then .ioError "io" else .response demoResp

/-! ## Battery query API -/

/-- Python `round(num / den)` for non-negative operands: nearest integer with
ties to even.  `get_battery_level` computes `round(raw / 255 * 100)` in
floating point; for a byte raw value the quotient is never within the
floating-point error of a half-integer (the closest approach is 1/102), so the
float result rounds exactly like the rational `raw * 100 / 255`, and no tie
ever occurs. -/
def py_round (num den : Nat) : Nat :=
  let q := num / den
  let r := num % den
  if 2 * r < den then q
  else if den < 2 * r then q + 1
  else if q % 2 = 0 then q else q + 1

/-- The clamp `min(max(round(raw / 255 * 100), 0), 100)` from `get_battery_level`. -/
def battery_scale (raw : Nat) : Nat :=
  min (max (py_round (raw * 100) 255) 0) 100

/-- Python `response and len(response) > 10`: the per-attempt usability test
of `get_battery_level` / `get_charging_status`. -/
def usable (response : Option (List Nat)) : Bool :=
  match response with
  | none => false
  | some resp => decide (10 < resp.length)

/-- The value extracted by one attempt of `get_battery_level`, when usable. -/
def battery_attempt (response : Option (List Nat)) : Option Nat :=
  match response with
  | none => none
  | some resp => if 10 < resp.length then some (battery_scale (resp.getD 10 0)) else none

/-- The value extracted by one attempt of `get_charging_status`:
`charging = response[10] > 0`. -/
def charging_attempt (response : Option (List Nat)) : Option Bool :=
  match response with
  | none => none
  | some resp => if 10 < resp.length then some (decide (0 < resp.getD 10 0)) else none

/-- Python `get_battery_level(device)`: command class 0x07, command id 0x80, data
size 0x02, two zero argument bytes, transaction id from the descriptor
(default 0x1F); at most two transport attempts (`b1`, then — after a 500 ms
sleep — `b2` against the descriptor as mutated by the first call); -1 when
both attempts fail.  A `ValueError` from report construction would propagate
(it cannot occur for these fixed arguments). -/
def get_battery_level (b1 b2 : Behavior) (device : Descriptor) :
    Except String (Int × Descriptor) :=
  (construct_razer_report (device.transaction_id.getD 0x1F) 0x07 0x80 0x02
    [0x00, 0x00]).map (fun report =>
      let o1 := send_and_receive_report b1 device report "get_battery_level"
      match battery_attempt o1.1 with
      | some level => ((level : Int), o1.2.1)
      | none =>
        let o2 := send_and_receive_report b2 o1.2.1 report "get_battery_level"
        match battery_attempt o2.1 with
        | some level => ((level : Int), o2.2.1)
        | none => (-1, o2.2.1))

/-- Python `get_charging_status(device)`: as `get_battery_level` but command id 0x84
and a boolean result; `False` when both attempts fail. -/
def get_charging_status (b1 b2 : Behavior) (device : Descriptor) :
    Except String (Bool × Descriptor) :=
  (construct_razer_report (device.transaction_id.getD 0x1F) 0x07 0x84 0x02
    [0x00, 0x00]).map (fun report =>
      let o1 := send_and_receive_report b1 device report "get_charging_status"
      match charging_attempt o1.1 with
      | some charging => (charging, o1.2.1)
      | none =>
        let o2 := send_and_receive_report b2 o1.2.1 report "get_charging_status"
        match charging_attempt o2.1 with
        | some charging => (charging, o2.2.1)
        | none => (false, o2.2.1))

/-- A one-interface device whose single path answers with a 90-byte success
response carrying raw battery byte 200 at response index 10. -/
def c6Resp : List Nat := ((List.replicate 90 0).set 1 2).set 10 200

def c6Behavior : Behavior := fun _ _ _ => .response c6Resp

def c6Device : Descriptor := { interfaces := [⟨"p", some 0⟩] }

/-! ## Device registry and discovery -/

/-- The `RAZER_DEVICES` product-id → display-name registry. -/
def RAZER_DEVICES : List (Int × String) := [
  (0x0013, "Razer Orochi 2011"),
  (0x0015, "Razer Naga"),
  (0x0016, "Razer DeathAdder 3.5G"),
  (0x001F, "Razer Naga Epic"),
  (0x0020, "Razer Abyssus 1800"),
  (0x0024, "Razer Mamba 2012 (Wired)"),
  (0x0025, "Razer Mamba 2012 (Wireless)"),
  (0x0029, "Razer DeathAdder 3.5G Black"),
  (0x002E, "Razer Naga 2012"),
  (0x002F, "Razer Imperator 2012"),
  (0x0032, "Razer Ouroboros"),
  (0x0034, "Razer Taipan"),
  (0x0036, "Razer Naga Hex (Red)"),
  (0x0037, "Razer DeathAdder 2013"),
  (0x0038, "Razer DeathAdder 1800"),
  (0x0039, "Razer Orochi 2013"),
  (0x003E, "Razer Naga Epic Chroma (Wired)"),
  (0x003F, "Razer Naga Epic Chroma (Wireless)"),
  (0x0040, "Razer Naga 2014"),
  (0x0041, "Razer Naga Hex"),
  (0x0042, "Razer Abyssus"),
  (0x0043, "Razer DeathAdder Chroma"),
  (0x0044, "Razer Mamba Chroma (Wired)"),
  (0x0045, "Razer Mamba Chroma (Wireless)"),
  (0x0046, "Razer Mamba Tournament Edition"),
  (0x0048, "Razer Orochi (Wired)"),
  (0x004C, "Razer Diamondback Chroma"),
  (0x004F, "Razer DeathAdder 2000"),
  (0x0050, "Razer Naga Hex V2"),
  (0x0053, "Razer Naga Chroma"),
  (0x0054, "Razer DeathAdder 3500"),
  (0x0059, "Razer Lancehead (Wired)"),
  (0x005A, "Razer Lancehead (Wireless)"),
  (0x005B, "Razer Abyssus V2"),
  (0x005C, "Razer DeathAdder Elite"),
  (0x005E, "Razer Abyssus 2000"),
  (0x0060, "Razer Lancehead Tournament Edition"),
  (0x0062, "Razer Atheris (Receiver)"),
  (0x0064, "Razer Basilisk"),
  (0x0065, "Razer Basilisk Essential"),
  (0x0067, "Razer Naga Trinity"),
  (0x0068, "Razer Firefly Hyperflux (2018)"),
  (0x006A, "Razer Abyssus Elite (D.Va Edition)"),
  (0x006B, "Razer Abyssus Essential"),
  (0x006C, "Razer Mamba Elite"),
  (0x006E, "Razer DeathAdder Essential"),
  (0x006F, "Razer Lancehead Wireless (Receiver)"),
  (0x0070, "Razer Lancehead Wireless (Wired)"),
  (0x0071, "Razer DeathAdder Essential (White Edition)"),
  (0x0072, "Razer Mamba Wireless (Receiver)"),
  (0x0073, "Razer Mamba Wireless (Wired)"),
  (0x0077, "Razer Pro Click (Receiver)"),
  (0x0078, "Razer Viper"),
  (0x007A, "Razer Viper Ultimate (Wired)"),
  (0x007B, "Razer Viper Ultimate (Wireless)"),
  (0x007C, "Razer DeathAdder V2 Pro (Wired)"),
  (0x007D, "Razer DeathAdder V2 Pro (Wireless)"),
  (0x007E, "Razer Mouse Dock"),
  (0x0080, "Razer Pro Click (Wired)"),
  (0x0083, "Razer Basilisk X HyperSpeed"),
  (0x0084, "Razer DeathAdder V2"),
  (0x0085, "Razer Basilisk V2"),
  (0x0086, "Razer Basilisk Ultimate"),
  (0x0088, "Razer Basilisk Ultimate (Receiver)"),
  (0x008A, "Razer Viper Mini"),
  (0x008C, "Razer DeathAdder V2 Mini"),
  (0x008D, "Razer Naga Left Handed Edition 2020"),
  (0x008F, "Razer Naga Pro (Wired)"),
  (0x0090, "Razer Naga Pro (Wireless)"),
  (0x0091, "Razer Viper 8KHz"),
  (0x0094, "Razer Orochi V2 (Receiver)"),
  (0x0095, "Razer Orochi V2 (Bluetooth)"),
  (0x0096, "Razer Naga X"),
  (0x0098, "Razer DeathAdder Essential (2021)"),
  (0x0099, "Razer Basilisk V3"),
  (0x009A, "Razer Pro Click Mini (Receiver)"),
  (0x009C, "Razer DeathAdder V2 X HyperSpeed"),
  (0x009E, "Razer Viper Mini SE (Wired)"),
  (0x009F, "Razer Viper Mini SE (Wireless)"),
  (0x00A1, "Razer DeathAdder V2 Lite"),
  (0x00A3, "Razer Cobra"),
  (0x00A5, "Razer Viper V2 Pro (Wired)"),
  (0x00A6, "Razer Viper V2 Pro (Wireless)"),
  (0x00A7, "Razer Naga V2 Pro (Wired)"),
  (0x00A8, "Razer Naga V2 Pro (Wireless)"),
  (0x00AA, "Razer Basilisk V3 Pro (Wired)"),
  (0x00AB, "Razer Basilisk V3 Pro (Wireless)"),
  (0x00AF, "Razer Cobra Pro (Wired)"),
  (0x00B0, "Razer Cobra Pro (Wireless)"),
  (0x00B2, "Razer DeathAdder V3"),
  (0x00B3, "Razer HyperPolling Wireless Dongle"),
  (0x00B4, "Razer Naga V2 HyperSpeed (Receiver)"),
  (0x00B6, "Razer DeathAdder V3 Pro (Wired)"),
  (0x00B7, "Razer DeathAdder V3 Pro (Wireless)"),
  (0x00B8, "Razer Viper V3 HyperSpeed"),
  (0x00B9, "Razer Basilisk V3 X HyperSpeed"),
  (0x00BE, "Razer DeathAdder V4 Pro (Wired)"),
  (0x00BF, "Razer DeathAdder V4 Pro (Wireless)"),
  (0x00C0, "Razer Viper V3 Pro (Wired)"),
  (0x00C1, "Razer Viper V3 Pro (Wireless)"),
  (0x00C2, "Razer DeathAdder V3 Pro (Wired)"),
  (0x00C3, "Razer DeathAdder V3 Pro (Wireless)"),
  (0x00C4, "Razer DeathAdder V3 HyperSpeed (Wired)"),
  (0x00C5, "Razer DeathAdder V3 HyperSpeed (Wireless)"),
  (0x00C7, "Razer Pro Click V2 Vertical Edition (Wired)"),
  (0x00C8, "Razer Pro Click V2 Vertical Edition (Wireless)"),
  (0x00CB, "Razer Basilisk V3 35K"),
  (0x00CC, "Razer Basilisk V3 Pro 35K (Wired)"),
  (0x00CD, "Razer Basilisk V3 Pro 35K (Wireless)"),
  (0x00D0, "Razer Pro Click V2 (Wired)"),
  (0x00D1, "Razer Pro Click V2 (Wireless)"),
  (0x00D6, "Razer Basilisk V3 Pro 35K Phantom Green Edition (Wired)"),
  (0x00D7, "Razer Basilisk V3 Pro 35K Phantom Green Edition (Wireless)"),
  (0x010D, "Razer BlackWidow Ultimate 2012"),
  (0x010E, "Razer BlackWidow Stealth Edition"),
  (0x010F, "Razer Anansi"),
  (0x0111, "Razer Nostromo"),
  (0x0113, "Razer Orbweaver"),
  (0x0118, "Razer DeathStalker/DeathStalker Essential"),
  (0x011A, "Razer BlackWidow Ultimate 2013"),
  (0x011B, "Razer BlackWidow (Classic)"),
  (0x011C, "Razer BlackWidow Tournament Edition 2014"),
  (0x0201, "Razer Tartarus"),
  (0x0202, "Razer DeathStalker Expert"),
  (0x0203, "Razer BlackWidow Chroma"),
  (0x0204, "Razer DeathStalker Chroma"),
  (0x0205, "Razer Blade Stealth"),
  (0x0207, "Razer Orbweaver Chroma"),
  (0x0208, "Razer Tartarus Chroma"),
  (0x0209, "Razer BlackWidow Tournament Edition Chroma"),
  (0x020F, "Razer Blade (QHD)"),
  (0x0210, "Razer Blade Pro (Late 2016)"),
  (0x0211, "Razer BlackWidow Chroma (Overwatch)"),
  (0x0214, "Razer BlackWidow Ultimate 2016"),
  (0x0215, "Razer Core"),
  (0x0216, "Razer BlackWidow X Chroma"),
  (0x0217, "Razer BlackWidow X Ultimate"),
  (0x021A, "Razer BlackWidow X Tournament Edition Chroma"),
  (0x021E, "Razer Ornata Chroma"),
  (0x021F, "Razer Ornata"),
  (0x0220, "Razer Blade Stealth (Late 2016)"),
  (0x0221, "Razer BlackWidow Chroma V2"),
  (0x0224, "Razer Blade (Late 2016)"),
  (0x0225, "Razer Blade Pro (2017)"),
  (0x0226, "Razer Huntsman Elite"),
  (0x0227, "Razer Huntsman"),
  (0x0228, "Razer BlackWidow Elite"),
  (0x022A, "Razer Cynosa Chroma"),
  (0x022B, "Razer Tartarus V2"),
  (0x022C, "Razer Cynosa Chroma Pro"),
  (0x022D, "Razer Blade Stealth (Mid 2017)"),
  (0x022F, "Razer Blade Pro FullHD (2017)"),
  (0x0232, "Razer Blade Stealth (Late 2017)"),
  (0x0233, "Razer Blade 15 (2018)"),
  (0x0234, "Razer Blade Pro 17 (2019)"),
  (0x0235, "Razer BlackWidow Lite"),
  (0x0237, "Razer BlackWidow Essential"),
  (0x0239, "Razer Blade Stealth (2019)"),
  (0x023A, "Razer Blade 15 (2019) Advanced"),
  (0x023B, "Razer Blade 15 (2018) Base Model"),
  (0x023F, "Razer Cynosa Lite"),
  (0x0240, "Razer Blade 15 (2018) Mercury"),
  (0x0241, "Razer BlackWidow 2019"),
  (0x0243, "Razer Huntsman Tournament Edition"),
  (0x0244, "Razer Tartarus Pro"),
  (0x0245, "Razer Blade 15 (Mid 2019) Mercury"),
  (0x0246, "Razer Blade 15 (Mid 2019) Base Model"),
  (0x024A, "Razer Blade Stealth (Late 2019)"),
  (0x024B, "Razer Blade Advanced (Late 2019)"),
  (0x024C, "Razer Blade Pro (Late 2019)"),
  (0x024D, "Razer Blade 15 Studio Edition (2019)"),
  (0x024E, "Razer BlackWidow V3"),
  (0x0252, "Razer Blade Stealth (Early 2020)"),
  (0x0253, "Razer Blade 15 Advanced (2020)"),
  (0x0255, "Razer Blade Base (Early 2020)"),
  (0x0256, "Razer Blade Pro (Early 2020)"),
  (0x0257, "Razer Huntsman Mini"),
  (0x0258, "Razer BlackWidow V3 Mini HyperSpeed (Wired)"),
  (0x0259, "Razer Blade Stealth (Late 2020)"),
  (0x025A, "Razer BlackWidow V3 Pro Wired"),
  (0x025C, "Razer BlackWidow V3 Pro 2.4 Ghz Wireless"),
  (0x025D, "Razer Ornata V2"),
  (0x025E, "Razer Cynosa V2"),
  (0x0266, "Razer Huntsman V2 Analog"),
  (0x0268, "Razer Blade Late 2020 Base"),
  (0x0269, "Razer Huntsman Mini JP"),
  (0x026A, "Razer Book (2020)"),
  (0x026B, "Razer Huntsman V2 Tenkeyless"),
  (0x026C, "Razer Huntsman V2"),
  (0x026D, "Razer Blade 15 Advanced (Early 2021)"),
  (0x026E, "Razer Blade 17 Pro (Early 2021)"),
  (0x026F, "Razer Blade Base (Early 2021)"),
  (0x0270, "Razer Blade 14 (2021)"),
  (0x0271, "Razer BlackWidow V3 Mini HyperSpeed (Wireless)"),
  (0x0276, "Razer Blade 15 Advanced (Mid 2021)"),
  (0x0279, "Razer Blade 17 Pro (Mid 2021)"),
  (0x027A, "Razer Blade Base (Early 2022)"),
  (0x0282, "Razer Huntsman Mini Analog"),
  (0x0287, "Razer BlackWidow V4"),
  (0x028A, "Razer Blade 15 Advanced (Early 2022)"),
  (0x028B, "Razer Blade 17 (2022)"),
  (0x028C, "Razer Blade 14 (2022)"),
  (0x028D, "Razer BlackWidow V4 Pro"),
  (0x028F, "Razer Ornata V3 (Alternate)"),
  (0x0290, "Razer DeathStalker V2 Pro (Wireless)"),
  (0x0292, "Razer DeathStalker V2 Pro (Wired)"),
  (0x0293, "Razer BlackWidow V4 X"),
  (0x0294, "Razer Ornata V3 X"),
  (0x0295, "Razer DeathStalker V2"),
  (0x0296, "Razer DeathStalker V2 Pro TKL (Wireless)"),
  (0x0298, "Razer DeathStalker V2 Pro TKL (Wired)"),
  (0x029D, "Razer Blade 14 (2023)"),
  (0x029E, "Razer Blade 15 (2023)"),
  (0x029F, "Razer Blade 16 (2023)"),
  (0x02A0, "Razer Blade 18 (2023)"),
  (0x02A1, "Razer Ornata V3"),
  (0x02A2, "Razer Ornata V3 X (Alternate)"),
  (0x02A3, "Razer Ornata V3 Tenkeyless"),
  (0x02A5, "Razer BlackWidow V4 75%"),
  (0x02A6, "Razer Huntsman V3 Pro"),
  (0x02A7, "Razer Huntsman V3 Pro TKL"),
  (0x02B6, "Razer Blade 14 (2024)"),
  (0x02B8, "Razer Blade 18 (2024)"),
  (0x02B9, "Razer BlackWidow V4 Mini HyperSpeed (Wired)"),
  (0x02BA, "Razer BlackWidow V4 Mini HyperSpeed (Wireless)"),
  (0x02C5, "Razer Blade 14 (2025)"),
  (0x02C6, "Razer Blade 16 (2025)"),
  (0x02C7, "Razer Blade 18 (2025)"),
  (0x0501, "Razer Kraken 7.1"),
  (0x0504, "Razer Kraken 7.1 Chroma"),
  (0x0506, "Razer Kraken 7.1 (Alternate)"),
  (0x0510, "Razer Kraken 7.1 V2"),
  (0x0517, "Razer Nommo Chroma (Speakers)"),
  (0x0518, "Razer Nommo Pro (Speakers)"),
  (0x0527, "Razer Kraken Ultimate"),
  (0x0560, "Razer Kraken Kitty V2"),
  (0x0A24, "Razer BlackWidow V3 TK"),
  (0x0C00, "Razer Firefly (2013)"),
  (0x0C01, "Razer Goliathus (2018)"),
  (0x0C02, "Razer Goliathus Extended (2018)"),
  (0x0C04, "Razer Firefly V2"),
  (0x0C05, "Razer Strider Chroma"),
  (0x0C06, "Razer Goliathus Chroma 3XL"),
  (0x0C08, "Razer Firefly V2 Pro"),
  (0x0F07, "Razer Chroma Mug Holder"),
  (0x0F08, "Razer Base Station Chroma (Headphone Stand)"),
  (0x0F09, "Razer Chroma Hardware Development Kit (HDK)"),
  (0x0F0D, "Razer Laptop Stand Chroma"),
  (0x0F12, "Razer Raptor 27"),
  (0x0F17, "Razer Tomahawk ATX"),
  (0x0F19, "Razer Kraken Kitty Edition"),
  (0x0F1A, "Razer Core X Chroma"),
  (0x0F1D, "Razer Mouse Bungee V3 Chroma"),
  (0x0F1F, "Razer Chroma Addressable RGB Controller"),
  (0x0F20, "Razer Base Station V2 Chroma"),
  (0x0F21, "Razer Thunderbolt 4 Dock Chroma"),
  (0x0F26, "Razer Charging Pad Chroma"),
  (0x0A00, "Razer DeathAdder Chroma"),
  (0x0A01, "Razer Mamba Chroma"),
  (0x0A02, "Razer Cynosa Chroma"),
  (0x0A03, "Razer Tartarus Chroma"),
  (0x0F2B, "Razer Laptop Stand Chroma V2")
]

/-- The `RAZER_DEVICE_TYPES` product-id → device-class table. -/
def RAZER_DEVICE_TYPES : List (Int × String) := [
  (0x010D, "keyboard"),
  (0x010E, "keyboard"),
  (0x010F, "keyboard"),
  (0x0111, "keyboard"),
  (0x0113, "keyboard"),
  (0x0118, "keyboard"),
  (0x011A, "keyboard"),
  (0x011B, "keyboard"),
  (0x011C, "keyboard"),
  (0x0201, "keyboard"),
  (0x0202, "keyboard"),
  (0x0203, "keyboard"),
  (0x0204, "keyboard"),
  (0x0205, "keyboard"),
  (0x0207, "keyboard"),
  (0x0208, "keyboard"),
  (0x0209, "keyboard"),
  (0x020F, "keyboard"),
  (0x0210, "keyboard"),
  (0x0211, "keyboard"),
  (0x0214, "keyboard"),
  (0x0216, "keyboard"),
  (0x0217, "keyboard"),
  (0x021A, "keyboard"),
  (0x021E, "keyboard"),
  (0x021F, "keyboard"),
  (0x0220, "keyboard"),
  (0x0221, "keyboard"),
  (0x0224, "keyboard"),
  (0x0225, "keyboard"),
  (0x0226, "keyboard"),
  (0x0227, "keyboard"),
  (0x0228, "keyboard"),
  (0x022A, "keyboard"),
  (0x022B, "keyboard"),
  (0x022C, "keyboard"),
  (0x022D, "keyboard"),
  (0x022F, "keyboard"),
  (0x0232, "keyboard"),
  (0x0233, "keyboard"),
  (0x0234, "keyboard"),
  (0x0235, "keyboard"),
  (0x0237, "keyboard"),
  (0x0239, "keyboard"),
  (0x023A, "keyboard"),
  (0x023B, "keyboard"),
  (0x023F, "keyboard"),
  (0x0240, "keyboard"),
  (0x0241, "keyboard"),
  (0x0243, "keyboard"),
  (0x0244, "keyboard"),
  (0x0245, "keyboard"),
  (0x0246, "keyboard"),
  (0x024A, "keyboard"),
  (0x024B, "keyboard"),
  (0x024C, "keyboard"),
  (0x024D, "keyboard"),
  (0x024E, "keyboard"),
  (0x0252, "keyboard"),
  (0x0253, "keyboard"),
  (0x0255, "keyboard"),
  (0x0256, "keyboard"),
  (0x0257, "keyboard"),
  (0x0258, "keyboard"),
  (0x0259, "keyboard"),
  (0x025A, "keyboard"),
  (0x025C, "keyboard"),
  (0x025D, "keyboard"),
  (0x025E, "keyboard"),
  (0x0266, "keyboard"),
  (0x0268, "keyboard"),
  (0x0269, "keyboard"),
  (0x026A, "keyboard"),
  (0x026B, "keyboard"),
  (0x026C, "keyboard"),
  (0x026D, "keyboard"),
  (0x026E, "keyboard"),
  (0x026F, "keyboard"),
  (0x0270, "keyboard"),
  (0x0271, "keyboard"),
  (0x0276, "keyboard"),
  (0x0279, "keyboard"),
  (0x027A, "keyboard"),
  (0x0282, "keyboard"),
  (0x0287, "keyboard"),
  (0x028A, "keyboard"),
  (0x028B, "keyboard"),
  (0x028C, "keyboard"),
  (0x028D, "keyboard"),
  (0x028F, "keyboard"),
  (0x0290, "keyboard"),
  (0x0292, "keyboard"),
  (0x0293, "keyboard"),
  (0x0294, "keyboard"),
  (0x0295, "keyboard"),
  (0x0296, "keyboard"),
  (0x0298, "keyboard"),
  (0x029D, "keyboard"),
  (0x029E, "keyboard"),
  (0x029F, "keyboard"),
  (0x02A0, "keyboard"),
  (0x02A1, "keyboard"),
  (0x02A2, "keyboard"),
  (0x02A3, "keyboard"),
  (0x02A5, "keyboard"),
  (0x02A6, "keyboard"),
  (0x02A7, "keyboard"),
  (0x02B6, "keyboard"),
  (0x02B8, "keyboard"),
  (0x02B9, "keyboard"),
  (0x02BA, "keyboard"),
  (0x02C5, "keyboard"),
  (0x02C6, "keyboard"),
  (0x02C7, "keyboard"),
  (0x0A24, "keyboard"),
  (0x0A00, "mouse"),
  (0x0A01, "mouse"),
  (0x0A02, "keyboard"),
  (0x0A03, "keyboard"),
  (0x0013, "mouse"),
  (0x0015, "mouse"),
  (0x0016, "mouse"),
  (0x001F, "mouse"),
  (0x0020, "mouse"),
  (0x0024, "mouse"),
  (0x0025, "mouse"),
  (0x0029, "mouse"),
  (0x002E, "mouse"),
  (0x002F, "mouse"),
  (0x0032, "mouse"),
  (0x0034, "mouse"),
  (0x0036, "mouse"),
  (0x0037, "mouse"),
  (0x0038, "mouse"),
  (0x0039, "mouse"),
  (0x003E, "mouse"),
  (0x003F, "mouse"),
  (0x0040, "mouse"),
  (0x0041, "mouse"),
  (0x0042, "mouse"),
  (0x0043, "mouse"),
  (0x0044, "mouse"),
  (0x0045, "mouse"),
  (0x0046, "mouse"),
  (0x0048, "mouse"),
  (0x004C, "mouse"),
  (0x004F, "mouse"),
  (0x0050, "mouse"),
  (0x0053, "mouse"),
  (0x0054, "mouse"),
  (0x0059, "mouse"),
  (0x005A, "mouse"),
  (0x005B, "mouse"),
  (0x005C, "mouse"),
  (0x005E, "mouse"),
  (0x0060, "mouse"),
  (0x0062, "mouse"),
  (0x0064, "mouse"),
  (0x0065, "mouse"),
  (0x0067, "mouse"),
  (0x006A, "mouse"),
  (0x006B, "mouse"),
  (0x006C, "mouse"),
  (0x006E, "mouse"),
  (0x006F, "mouse"),
  (0x0070, "mouse"),
  (0x0071, "mouse"),
  (0x0072, "mouse"),
  (0x0073, "mouse"),
  (0x0077, "mouse"),
  (0x0078, "mouse"),
  (0x007A, "mouse"),
  (0x007B, "mouse"),
  (0x007C, "mouse"),
  (0x007D, "mouse"),
  (0x0080, "mouse"),
  (0x0083, "mouse"),
  (0x0084, "mouse"),
  (0x0085, "mouse"),
  (0x0086, "mouse"),
  (0x0088, "mouse"),
  (0x008A, "mouse"),
  (0x008C, "mouse"),
  (0x008D, "mouse"),
  (0x008F, "mouse"),
  (0x0090, "mouse"),
  (0x0091, "mouse"),
  (0x0094, "mouse"),
  (0x0095, "mouse"),
  (0x0096, "mouse"),
  (0x0098, "mouse"),
  (0x0099, "mouse"),
  (0x009A, "mouse"),
  (0x009C, "mouse"),
  (0x009E, "mouse"),
  (0x009F, "mouse"),
  (0x00A1, "mouse"),
  (0x00A3, "mouse"),
  (0x00A5, "mouse"),
  (0x00A6, "mouse"),
  (0x00A7, "mouse"),
  (0x00A8, "mouse"),
  (0x00AA, "mouse"),
  (0x00AB, "mouse"),
  (0x00AF, "mouse"),
  (0x00B0, "mouse"),
  (0x00B2, "mouse"),
  (0x00B3, "dongle"),
  (0x00B4, "mouse"),
  (0x00B6, "mouse"),
  (0x00B7, "mouse"),
  (0x00B8, "mouse"),
  (0x00B9, "mouse"),
  (0x00BE, "mouse"),
  (0x00BF, "mouse"),
  (0x00C0, "mouse"),
  (0x00C1, "mouse"),
  (0x00C2, "mouse"),
  (0x00C3, "mouse"),
  (0x00C4, "mouse"),
  (0x00C5, "mouse"),
  (0x00C7, "mouse"),
  (0x00C8, "mouse"),
  (0x00CB, "mouse"),
  (0x00CC, "mouse"),
  (0x00CD, "mouse"),
  (0x00D0, "mouse"),
  (0x00D1, "mouse"),
  (0x00D6, "mouse"),
  (0x00D7, "mouse"),
  (0x0068, "mousepad"),
  (0x0C00, "mousepad"),
  (0x0C01, "mousepad"),
  (0x0C02, "mousepad"),
  (0x0C04, "mousepad"),
  (0x0C05, "mousepad"),
  (0x0C06, "mousepad"),
  (0x0C08, "mousepad"),
  (0x0501, "headset"),
  (0x0504, "headset"),
  (0x0506, "headset"),
  (0x0510, "headset"),
  (0x0527, "headset"),
  (0x0560, "headset"),
  (0x0F19, "headset"),
  (0x0517, "speaker"),
  (0x0518, "speaker"),
  (0x007E, "accessory"),
  (0x0215, "accessory"),
  (0x0F07, "accessory"),
  (0x0F08, "accessory"),
  (0x0F09, "accessory"),
  (0x0F0D, "accessory"),
  (0x0F12, "accessory"),
  (0x0F17, "accessory"),
  (0x0F1A, "accessory"),
  (0x0F1D, "accessory"),
  (0x0F1F, "accessory"),
  (0x0F20, "accessory"),
  (0x0F21, "accessory"),
  (0x0F26, "accessory"),
  (0x0F2B, "accessory")
]

/-- The `RAZER_TRANSACTION_IDS` product-id → transaction-id table. -/
def RAZER_TRANSACTION_IDS : List (Int × Int) := [
  (0x0013, 0xFF),
  (0x0015, 0x3F),
  (0x0016, 0x3F),
  (0x001F, 0x3F),
  (0x0020, 0x3F),
  (0x0024, 0x3F),
  (0x0025, 0x3F),
  (0x0029, 0x3F),
  (0x002E, 0x3F),
  (0x002F, 0x3F),
  (0x0032, 0x3F),
  (0x0034, 0x3F),
  (0x0036, 0x3F),
  (0x0037, 0x3F),
  (0x0038, 0x3F),
  (0x0039, 0x3F),
  (0x003E, 0x3F),
  (0x003F, 0x3F),
  (0x0040, 0xFF),
  (0x0041, 0x3F),
  (0x0042, 0x3F),
  (0x0043, 0x3F),
  (0x0044, 0x3F),
  (0x0045, 0x3F),
  (0x0046, 0x3F),
  (0x0048, 0x3F),
  (0x004C, 0x3F),
  (0x004F, 0x3F),
  (0x0050, 0x3F),
  (0x0053, 0x3F),
  (0x0054, 0x3F),
  (0x0059, 0x3F),
  (0x005A, 0x3F),
  (0x005B, 0x3F),
  (0x005C, 0x3F),
  (0x005E, 0x3F),
  (0x0060, 0x3F),
  (0x0062, 0x1F),
  (0x0064, 0x3F),
  (0x0065, 0x3F),
  (0x0067, 0x1F),
  (0x006A, 0x3F),
  (0x006B, 0x3F),
  (0x006C, 0x1F),
  (0x006E, 0x3F),
  (0x006F, 0x1F),
  (0x0070, 0x1F),
  (0x0071, 0x3F),
  (0x0072, 0x3F),
  (0x0073, 0x3F),
  (0x0077, 0x1F),
  (0x0078, 0x3F),
  (0x007A, 0x3F),
  (0x007B, 0x3F),
  (0x007C, 0x3F),
  (0x007D, 0x3F),
  (0x0080, 0x1F),
  (0x0083, 0xFF),
  (0x0084, 0x3F),
  (0x0085, 0x1F),
  (0x0086, 0x1F),
  (0x0088, 0x1F),
  (0x008A, 0x3F),
  (0x008C, 0x3F),
  (0x008D, 0x1F),
  (0x008F, 0x1F),
  (0x0090, 0x1F),
  (0x0091, 0x1F),
  (0x0094, 0x1F),
  (0x0095, 0x1F),
  (0x0096, 0x1F),
  (0x0098, 0x3F),
  (0x0099, 0x1F),
  (0x009A, 0x1F),
  (0x009C, 0x1F),
  (0x009E, 0x1F),
  (0x009F, 0x1F),
  (0x00A1, 0x1F),
  (0x00A3, 0x1F),
  (0x00A5, 0x1F),
  (0x00A6, 0x1F),
  (0x00A7, 0x1F),
  (0x00A8, 0x1F),
  (0x00AA, 0x1F),
  (0x00AB, 0x1F),
  (0x00AF, 0x1F),
  (0x00B0, 0x1F),
  (0x00B2, 0x1F),
  (0x00B3, 0x1F),
  (0x00B4, 0x1F),
  (0x00B6, 0x1F),
  (0x00B7, 0x1F),
  (0x00B8, 0x1F),
  (0x00B9, 0x1F),
  (0x00BE, 0x1F),
  (0x00BF, 0x1F),
  (0x00C0, 0x1F),
  (0x00C1, 0x1F),
  (0x00C2, 0x1F),
  (0x00C3, 0x1F),
  (0x00C4, 0x1F),
  (0x00C5, 0x1F),
  (0x00C7, 0x1F),
  (0x00C8, 0x1F),
  (0x00CB, 0x1F),
  (0x00CC, 0x1F),
  (0x00CD, 0x1F),
  (0x00D0, 0x1F),
  (0x00D1, 0x1F),
  (0x00D6, 0x1F),
  (0x00D7, 0x1F),
  (0x010D, 0xFF),
  (0x010E, 0xFF),
  (0x010F, 0xFF),
  (0x0111, 0xFF),
  (0x0113, 0xFF),
  (0x0118, 0xFF),
  (0x011A, 0xFF),
  (0x011B, 0xFF),
  (0x011C, 0xFF),
  (0x0201, 0xFF),
  (0x0202, 0xFF),
  (0x0203, 0xFF),
  (0x0204, 0xFF),
  (0x0205, 0xFF),
  (0x0207, 0x3F),
  (0x0208, 0xFF),
  (0x0209, 0xFF),
  (0x020F, 0xFF),
  (0x0210, 0xFF),
  (0x0211, 0xFF),
  (0x0214, 0xFF),
  (0x0216, 0xFF),
  (0x0217, 0xFF),
  (0x021A, 0xFF),
  (0x021E, 0x3F),
  (0x021F, 0x3F),
  (0x0220, 0xFF),
  (0x0221, 0x3F),
  (0x0224, 0x3F),
  (0x0225, 0xFF),
  (0x0226, 0x3F),
  (0x0227, 0x3F),
  (0x0228, 0x1F),
  (0x022A, 0x3F),
  (0x022B, 0x1F),
  (0x022C, 0x3F),
  (0x022D, 0xFF),
  (0x022F, 0xFF),
  (0x0232, 0xFF),
  (0x0233, 0xFF),
  (0x0234, 0xFF),
  (0x0235, 0x3F),
  (0x0237, 0x3F),
  (0x0239, 0xFF),
  (0x023A, 0xFF),
  (0x023B, 0xFF),
  (0x023F, 0x3F),
  (0x0240, 0xFF),
  (0x0241, 0x3F),
  (0x0243, 0x3F),
  (0x0244, 0x1F),
  (0x0245, 0xFF),
  (0x0246, 0xFF),
  (0x024A, 0xFF),
  (0x024B, 0xFF),
  (0x024C, 0xFF),
  (0x024D, 0xFF),
  (0x024E, 0x1F),
  (0x0252, 0xFF),
  (0x0253, 0xFF),
  (0x0255, 0xFF),
  (0x0256, 0xFF),
  (0x0257, 0x3F),
  (0x0258, 0x1F),
  (0x0259, 0xFF),
  (0x025A, 0x1F),
  (0x025C, 0x9F),
  (0x025D, 0x1F),
  (0x025E, 0x1F),
  (0x0266, 0x1F),
  (0x0268, 0xFF),
  (0x0269, 0x3F),
  (0x026A, 0xFF),
  (0x026B, 0x1F),
  (0x026C, 0x1F),
  (0x026D, 0xFF),
  (0x026E, 0xFF),
  (0x026F, 0xFF),
  (0x0270, 0xFF),
  (0x0271, 0x9F),
  (0x0276, 0xFF),
  (0x0279, 0xFF),
  (0x027A, 0x1F),
  (0x0282, 0x1F),
  (0x0287, 0x1F),
  (0x028A, 0xFF),
  (0x028B, 0xFF),
  (0x028C, 0xFF),
  (0x028D, 0x1F),
  (0x028F, 0x1F),
  (0x0290, 0x9F),
  (0x0292, 0x1F),
  (0x0293, 0x1F),
  (0x0294, 0x1F),
  (0x0295, 0x1F),
  (0x0296, 0x9F),
  (0x0298, 0x1F),
  (0x029D, 0xFF),
  (0x029E, 0xFF),
  (0x029F, 0xFF),
  (0x02A0, 0xFF),
  (0x02A1, 0x1F),
  (0x02A2, 0x1F),
  (0x02A3, 0x1F),
  (0x02A5, 0x1F),
  (0x02A6, 0x1F),
  (0x02A7, 0x1F),
  (0x02B6, 0xFF),
  (0x02B8, 0xFF),
  (0x02B9, 0x1F),
  (0x02BA, 0x9F),
  (0x02C5, 0xFF),
  (0x02C6, 0xFF),
  (0x02C7, 0xFF),
  (0x0A00, 0x1F),
  (0x0A01, 0x1F),
  (0x0A02, 0x3F),
  (0x0A03, 0x3F),
  (0x0A24, 0x1F)
]

/-- Python `dict.get` on the registry tables (no duplicate keys). -/
def lookupTable {α : Type} (t : List (Int × α)) (pid : Int) : Option α :=
  (t.find? (fun e => e.1 = pid)).map Prod.snd

/-- Python `get_device_type(pid)`. -/
def get_device_type (pid : Int) : String :=
  (lookupTable RAZER_DEVICE_TYPES pid).getD "unknown"

/-- Python `get_transaction_id(pid)`. -/
def get_transaction_id (pid : Int) : Int :=
  (lookupTable RAZER_TRANSACTION_IDS pid).getD 0x00

/-- One raw HID enumeration entry (a dict whose keys may be missing).  A
missing `path` raises `KeyError` in the scan loop, which skips the entry. -/
structure HidEntry where
  product_id : Option Int := none
  path : Option String := none
  interface_number : Option Int := none
  serial_number : Option String := none
  product_string : Option String := none
deriving Repr, DecidableEq

/-- The grouping key `(serial, prod_str, pid)`. -/
abbrev ScanKey := String × String × Int

/-- Append an interface to a group's descriptor unless its raw path is
already present (`if path not in existing_paths`). -/
def addIfaceDedup (d : Descriptor) (iface : Interface) : Descriptor :=
  if (d.interfaces.map Interface.path).contains iface.path then d
  else { d with interfaces := d.interfaces ++ [iface] }

/-- Insert one enumeration entry into the grouped insertion-ordered
association list (`devices_grouped` preserves dict insertion order). -/
def addToGroup (groups : List (ScanKey × Descriptor)) (key : ScanKey)
    (fresh : Descriptor) (iface : Interface) : List (ScanKey × Descriptor) :=
  match groups with
  | [] => [(key, addIfaceDedup fresh iface)]
  | (k, d) :: rest =>
    if k = key then (k, addIfaceDedup d iface) :: rest
    else (k, d) :: addToGroup rest key fresh iface

/-- The body of the scan loop for one (already pid-filtered) entry.  An entry
without a path raises `KeyError` at `dev['path']` before any group is touched
and is skipped. -/
def scanStep (groups : List (ScanKey × Descriptor)) (dev : HidEntry) :
    List (ScanKey × Descriptor) :=
  match dev.product_id, dev.path with
  | some pid, some path =>
    -- the name fallback cannot fire after the registry filter; the Python
    -- hex formatting of the dead fallback string is not reproduced
    let name := (lookupTable RAZER_DEVICES pid).getD "Unknown (PID)"
    let device_type := get_device_type pid
    let transaction_id := get_transaction_id pid
    let interface_num := dev.interface_number.getD (-1)
    let serial := dev.serial_number.getD "N/A"
    let prod_str := dev.product_string.getD "N/A"
    addToGroup groups (serial, prod_str, pid)
      { name := name, pid := pid, devType := device_type,
        transaction_id := some transaction_id, interfaces := [] }
      ⟨path, some interface_num⟩
  | _, _ => groups

/-- Keep the enumeration entries whose product id is in the registry
(a missing `product_id` compares as `None`, never in the registry). -/
def registryFilter (entries : List HidEntry) : List HidEntry :=
  entries.filter (fun d =>
    match d.product_id with
    | some pid => (RAZER_DEVICES.map Prod.fst).contains pid
    | none => false)

/-- The grouped association list built by the scan loop. -/
def scanGroups (entries : List HidEntry) : List (ScanKey × Descriptor) :=
  (registryFilter entries).foldl scanStep []

/-- Python `scan_razer_devices()`: `none` models `hid.enumerate` raising (the scan
returns `[]`); the early returns for an empty enumeration and an empty
filtered list coincide with folding over the empty list. -/
def scan_razer_devices (enumeration : Option (List HidEntry)) : List Descriptor :=
  match enumeration with
  | none => []
  | some all_devices => (scanGroups all_devices).map Prod.snd

/-- Property preserved for every descriptor in the grouped list: deduplicated
interface paths and a registry pid. -/
def DescOk (d : Descriptor) : Prop :=
  (d.interfaces.map Interface.path).Nodup ∧
  (RAZER_DEVICES.map Prod.fst).contains d.pid = true

def GroupsOk (groups : List (ScanKey × Descriptor)) : Prop :=
  (groups.map Prod.fst).Nodup ∧ ∀ e ∈ groups, DescOk e.2

/-- Enumeration entries for the C8 witness: two usage-page duplicates of one
Razer Viper Mini path, one malformed entry without a path, and one entry with
an unregistered product id. -/
def c8Entries : List HidEntry :=
  [{ product_id := some 0x008A, path := some "p1", interface_number := some 0,
     serial_number := some "S", product_string := some "V" },
   { product_id := some 0x008A, path := some "p1", interface_number := some 1,
     serial_number := some "S", product_string := some "V" },
   { product_id := some 0x008A, serial_number := some "S",
     product_string := some "V" },
   { product_id := some 1, path := some "x" }]

/-! ## Theorems -/

/-- Any response longer than 9 bytes whose status byte is a pass-through value
validates; used to factor the two halves of the checksum-irrelevance claim. -/
theorem validate_true_of_success (resp : List Nat) (h9 : 9 < resp.length)
    (hs : resp.getD 1 0 = RAZER_STATUS_SUCCESS) : validate_response (some resp) = true := by
  have h1 : ¬ resp.length ≤ 9 := by omega
  have h2 : 1 < resp.length := by omega
  simp only [validate_response, if_neg h1, if_pos h2]
  rw [hs]
  simp

/-- C2: `validate_response` is true for any response longer than 9 bytes whose
status byte (index 1) is not busy (0x01), failure (0x03), timeout (0x04) or
not-supported (0x05) — in particular success (0x02), new/pending (0x00) and any
unrecognized value — and false for those four statuses; it is false for an
absent response and for any response of at most 9 bytes (the empty response
included). -/
theorem validate_response_spec (resp : List Nat) :
    validate_response none = false ∧
    (resp.length ≤ 9 → validate_response (some resp) = false) ∧
    (9 < resp.length →
      (validate_response (some resp) = true ↔
        (resp.getD 1 0 ≠ RAZER_STATUS_BUSY ∧ resp.getD 1 0 ≠ RAZER_STATUS_FAILURE ∧
         resp.getD 1 0 ≠ RAZER_STATUS_TIMEOUT ∧ resp.getD 1 0 ≠ RAZER_STATUS_NOT_SUPPORTED))) := by
  refine ⟨rfl, fun h => by simp [validate_response, h], fun h => ?_⟩
  have h1 : ¬ resp.length ≤ 9 := by omega
  have h2 : 1 < resp.length := by omega
  simp only [validate_response, if_neg h1, if_pos h2, RAZER_STATUS_SUCCESS,
    RAZER_STATUS_BUSY, RAZER_STATUS_FAILURE, RAZER_STATUS_TIMEOUT, RAZER_STATUS_NOT_SUPPORTED]
  generalize resp.getD 1 0 = st
  by_cases e2 : st = 2 <;> by_cases e1 : st = 1 <;> by_cases e3 : st = 3 <;>
    by_cases e4 : st = 4 <;> by_cases e5 : st = 5 <;> simp_all

/-- C2 witness: a 10-byte response with success status validates. -/
theorem validate_response_spec_witness :
    validate_response (some [0, 2, 0, 0, 0, 0, 0, 0, 0, 0]) = true :=
  ((validate_response_spec [0, 2, 0, 0, 0, 0, 0, 0, 0, 0]).2.2 (by decide)).mpr (by decide)

/-- C3: for a response of at least 90 bytes with success status, the result of
`validate_response` is true, and overwriting the trailing checksum byte (index
89, the checksum position after the report-ID prefix) with any value leaves the
result true: the CRC recomputation in `validate_response` only logs a warning
and never flips a success to invalid. -/
theorem validate_response_checksum_nonfatal (resp : List Nat) (v : Nat)
    (hlen : 90 ≤ resp.length) (hstatus : resp.getD 1 0 = RAZER_STATUS_SUCCESS) :
    validate_response (some resp) = true ∧
    validate_response (some (resp.set 89 v)) = true := by
  have h9 : 9 < resp.length := by omega
  refine ⟨validate_true_of_success resp h9 hstatus, ?_⟩
  have hlen' : (resp.set 89 v).length = resp.length := List.length_set resp 89 v
  have hget : (resp.set 89 v).getD 1 0 = resp.getD 1 0 := by
    simp [List.getD_eq_getElem?_getD, List.getElem?_set_ne (by omega : (89:Nat) ≠ 1)]
  exact validate_true_of_success _ (by omega) (hget.trans hstatus)

/-- C3 witness: a concrete 90-byte success response stays valid when its
checksum byte is replaced by 0x4D (which does not match the recomputed XOR). -/
theorem validate_response_checksum_nonfatal_witness :
    validate_response (some ((List.replicate 90 0).set 1 2)) = true ∧
    validate_response (some (((List.replicate 90 0).set 1 2).set 89 0x4D)) = true :=
  validate_response_checksum_nonfatal ((List.replicate 90 0).set 1 2) 0x4D
    (by decide) (by decide)

/-- C10: `construct_razer_report` fails (with a `ValueError`, modelled as
`Except.error`) exactly when the argument list has more than 80 elements or
contains a value outside 0..255; the four header parameters are reduced mod 256
and never cause a failure. -/
theorem construct_razer_report_error_iff (tid cc cid ds : Int) (args : List Int) :
    (∃ msg, construct_razer_report tid cc cid ds args = .error msg) ↔
    (80 < args.length ∨ ∃ a ∈ args, a < 0 ∨ 255 < a) := by
  by_cases h1 : args.length > 80
  · simp [construct_razer_report, h1]
  · by_cases h2 : args.any (fun a => decide (a < 0) || decide (255 < a)) = true
    · have : ∃ a ∈ args, a < 0 ∨ 255 < a := by
        simpa [List.any_eq_true] using h2
      simp [construct_razer_report, h1, h2, this]
    · have hno : ¬ ∃ a ∈ args, a < 0 ∨ 255 < a := by
        simpa [List.any_eq_true] using h2
      simp [construct_razer_report, h1, h2, hno]

/-- Setting an element just past a left append block acts on the right block. -/
theorem set_append_add (xs : List Nat) (ys : List Nat) (k v : Nat) :
    (xs ++ ys).set (xs.length + k) v = xs ++ ys.set k v := by
  induction xs with
  | nil => simp
  | cons a t ih =>
    simp only [List.cons_append, List.length_cons, Nat.succ_add, List.set]
    exact congrArg (a :: ·) ih

/-- Writing `writeBytes` into the zero-filled region right after a populated block. -/
theorem writeBytes_append (vs : List Nat) : ∀ (pre : List Nat) (n : Nat), vs.length ≤ n →
    writeBytes (pre ++ List.replicate n 0) pre.length vs =
      pre ++ vs ++ List.replicate (n - vs.length) 0 := by
  induction vs with
  | nil => intro pre n _; simp [writeBytes]
  | cons v rest ih =>
    intro pre n h
    obtain ⟨m, rfl⟩ : ∃ m, n = m + 1 := ⟨n - 1, by simp at h; omega⟩
    have hset : (pre ++ List.replicate (m + 1) 0).set (pre.length + 0) v =
        pre ++ (v :: List.replicate m 0) := by
      rw [set_append_add]; simp [List.replicate_succ, List.set]
    have hrec := ih (pre ++ [v]) m (by simp at h ⊢; omega)
    calc writeBytes (pre ++ List.replicate (m + 1) 0) pre.length (v :: rest)
        = writeBytes ((pre ++ List.replicate (m + 1) 0).set pre.length v)
            (pre.length + 1) rest := rfl
      _ = writeBytes ((pre ++ [v]) ++ List.replicate m 0) (pre ++ [v]).length rest := by
          rw [show pre.length + 0 = pre.length from rfl] at hset
          rw [hset]; simp
      _ = (pre ++ [v]) ++ rest ++ List.replicate (m - rest.length) 0 := hrec
      _ = pre ++ (v :: rest) ++ List.replicate (m + 1 - (rest.length + 1)) 0 := by
          simp [List.append_assoc]

theorem reportBody_length (tid cc cid ds : Int) (args : List Int) (hlen : args.length ≤ 80) :
    (reportBody tid cc cid ds args).length = 88 := by
  simp [reportBody]; omega

/-- Closed form of a successful `construct_razer_report`: body, checksum byte
(computed on the pre-checksum report, whose bytes 2..87 equal the final ones),
and the reserved trailing zero. -/
theorem construct_razer_report_normal (tid cc cid ds : Int) (args : List Int)
    (hlen : args.length ≤ 80) (hrange : ∀ a ∈ args, 0 ≤ a ∧ a ≤ 255) :
    construct_razer_report tid cc cid ds args =
      .ok (reportBody tid cc cid ds args ++
            [calculate_crc (reportBody tid cc cid ds args ++ [0, 0]), 0]) := by
  have h80 : ¬ args.length > 80 := by omega
  have hany : ¬ (args.any (fun a => decide (a < 0) || decide (255 < a)) = true) := by
    simp only [List.any_eq_true, not_exists]
    intro a
    rcases Decidable.em (a ∈ args) with ha | ha
    · have := hrange a ha
      simp [ha]; omega
    · simp [ha]
  have hmaplen : (args.map Int.toNat).length = args.length := List.length_map args Int.toNat
  have hmin : min args.length 80 = args.length := by omega
  have htake : (args.map Int.toNat).take (min args.length 80) = args.map Int.toNat := by
    rw [hmin, ← hmaplen, List.take_length]
  -- the report after the eight header stores
  have hheader : ((((((((List.replicate REPORT_LEN 0).set 0 0x00).set 1
        ((tid % 256).toNat)).set 2 0x00).set 3 0x00).set 4 0x00).set 5
        ((ds % 256).toNat)).set 6 ((cc % 256).toNat)).set 7 ((cid % 256).toNat) =
      (0 :: (tid % 256).toNat :: 0 :: 0 :: 0 :: (ds % 256).toNat ::
        (cc % 256).toNat :: (cid % 256).toNat :: []) ++ List.replicate 82 0 := rfl
  have hwrite := writeBytes_append (args.map Int.toNat)
    (0 :: (tid % 256).toNat :: 0 :: 0 :: 0 :: (ds % 256).toNat ::
      (cc % 256).toNat :: (cid % 256).toNat :: []) 82 (by simp; omega)
  have hsplit : List.replicate (82 - args.length) (0:Nat) =
      List.replicate (80 - args.length) 0 ++ [0, 0] := by
    have : 82 - args.length = (80 - args.length) + 2 := by omega
    rw [this, List.replicate_add]
    rfl
  have h8 : (0 :: (tid % 256).toNat :: 0 :: 0 :: 0 :: (ds % 256).toNat ::
      (cc % 256).toNat :: (cid % 256).toNat :: ([] : List Nat)).length = 8 := rfl
  rw [h8] at hwrite
  simp only [construct_razer_report, if_neg h80, if_neg hany]
  rw [htake, hheader, hwrite]
  rw [hmaplen, hsplit]
  have hQ : (0 :: (tid % 256).toNat :: 0 :: 0 :: 0 :: (ds % 256).toNat ::
      (cc % 256).toNat :: (cid % 256).toNat :: []) ++ args.map Int.toNat ++
      (List.replicate (80 - args.length) 0 ++ [0, 0]) =
      reportBody tid cc cid ds args ++ [0, 0] := by
    simp [reportBody, List.append_assoc]
  rw [hQ]
  have hblen : (reportBody tid cc cid ds args).length = 88 :=
    reportBody_length tid cc cid ds args hlen
  have hset88 : (reportBody tid cc cid ds args ++ [0, 0]).set 88
      (calculate_crc (reportBody tid cc cid ds args ++ [0, 0])) =
      reportBody tid cc cid ds args ++
        [calculate_crc (reportBody tid cc cid ds args ++ [0, 0]), 0] := by
    conv_lhs => rw [show (88:Nat) = (reportBody tid cc cid ds args).length + 0 by omega]
    rw [set_append_add]
    rfl
  rw [hset88]
  have hset89 : (reportBody tid cc cid ds args ++
      [calculate_crc (reportBody tid cc cid ds args ++ [0, 0]), 0]).set 89 0x00 =
      reportBody tid cc cid ds args ++
        [calculate_crc (reportBody tid cc cid ds args ++ [0, 0]), 0] := by
    conv_lhs => rw [show (89:Nat) = (reportBody tid cc cid ds args).length + 1 by omega]
    rw [set_append_add]
    rfl
  rw [hset89]

theorem getD_map_toNat (l : List Int) (i : Nat) :
    (l.map Int.toNat).getD i 0 = (l.getD i 0).toNat := by
  induction l generalizing i with
  | nil => simp [List.getD_nil]
  | cons a t ih =>
    cases i with
    | zero => simp [List.getD_cons_zero]
    | succ n => rw [List.map_cons, List.getD_cons_succ, List.getD_cons_succ]; exact ih n

theorem getD_replicate_zero (n i : Nat) : (List.replicate n (0:Nat)).getD i 0 = 0 := by
  induction n generalizing i with
  | zero => simp [List.getD_nil]
  | succ m ih => cases i <;> simp [List.replicate_succ, List.getD_cons_zero, List.getD_cons_succ, ih]

/-- Function `calculate_crc` reads only bytes 2..87, so it ignores the last two bytes of
a 90-byte report. -/
theorem calculate_crc_append_pair (Q : List Nat) (x y z w : Nat) (hQ : Q.length = 88) :
    calculate_crc (Q ++ [x, y]) = calculate_crc (Q ++ [z, w]) := by
  unfold calculate_crc
  apply List.foldl_ext
  intro acc i hi
  rw [List.mem_range'_1] at hi
  have hi' : i < Q.length := by omega
  have l1 : (Q ++ [x, y]).length = 90 := by simp [hQ]
  have l2 : (Q ++ [z, w]).length = 90 := by simp [hQ]
  rw [List.getD_append _ _ _ _ hi', List.getD_append _ _ _ _ hi', l1, l2]

/-- C1: for any header parameters and an argument list of at most 80 values
each in 0..255, `construct_razer_report` returns a 90-byte report with byte 0
zero, byte 1 the transaction id mod 256, bytes 2..4 zero, byte 5 the data size
mod 256, byte 6 the command class mod 256, byte 7 the command id mod 256,
bytes 8..87 the arguments followed by zero padding, byte 89 zero, and byte 88
the XOR of bytes 2..87 of the final report (the checksum position is excluded
from its own computation, so this equals the XOR taken after argument
placement). -/
theorem construct_razer_report_layout (tid cc cid ds : Int) (args : List Int)
    (hlen : args.length ≤ 80) (hrange : ∀ a ∈ args, 0 ≤ a ∧ a ≤ 255) :
    ∃ r, construct_razer_report tid cc cid ds args = .ok r ∧
      r.length = 90 ∧
      r.getD 0 0 = 0x00 ∧
      r.getD 1 0 = (tid % 256).toNat ∧
      r.getD 2 0 = 0 ∧ r.getD 3 0 = 0 ∧ r.getD 4 0 = 0 ∧
      r.getD 5 0 = (ds % 256).toNat ∧
      r.getD 6 0 = (cc % 256).toNat ∧
      r.getD 7 0 = (cid % 256).toNat ∧
      (∀ i, i < 80 → r.getD (8 + i) 0 =
        if i < args.length then (args.getD i 0).toNat else 0) ∧
      r.getD 89 0 = 0x00 ∧
      r.getD 88 0 = calculate_crc r := by
  have hBlen : (reportBody tid cc cid ds args).length = 88 :=
    reportBody_length tid cc cid ds args hlen
  refine ⟨reportBody tid cc cid ds args ++
      [calculate_crc (reportBody tid cc cid ds args ++ [0, 0]), 0],
    construct_razer_report_normal tid cc cid ds args hlen hrange,
    by simp [hBlen], rfl, rfl, rfl, rfl, rfl, rfl, rfl, rfl, ?_, ?_, ?_⟩
  · -- bytes 8..87: arguments then zero padding
    intro i hi
    have hassoc : reportBody tid cc cid ds args ++
        [calculate_crc (reportBody tid cc cid ds args ++ [0, 0]), 0] =
        [0, (tid % 256).toNat, 0, 0, 0, (ds % 256).toNat,
          (cc % 256).toNat, (cid % 256).toNat] ++
        (args.map Int.toNat ++ (List.replicate (80 - args.length) 0 ++
          [calculate_crc (reportBody tid cc cid ds args ++ [0, 0]), 0])) := by
      simp [reportBody, List.append_assoc]
    rw [hassoc,
      List.getD_append_right _ _ _ _ (by simp)]
    have h8 : 8 + i - ([0, (tid % 256).toNat, 0, 0, 0, (ds % 256).toNat,
        (cc % 256).toNat, (cid % 256).toNat] : List Nat).length = i := by
      simp
    rw [h8]
    by_cases hil : i < args.length
    · rw [List.getD_append _ _ _ _ (by simp [hil] : i < (args.map Int.toNat).length),
        if_pos hil]
      exact getD_map_toNat args i
    · rw [List.getD_append_right _ _ _ _ (by simp; omega),
        List.getD_append _ _ _ _ (by simp; omega),
        if_neg hil]
      exact getD_replicate_zero _ _
  · -- byte 89 is the reserved trailing zero
    rw [List.getD_append_right _ _ _ _ (by omega : (reportBody tid cc cid ds args).length ≤ 89),
      hBlen]
    rfl
  · -- byte 88 is the checksum, and it equals the XOR of bytes 2..87 of the
    -- final report because the final report agrees with the pre-checksum one
    -- on bytes 2..87
    rw [List.getD_append_right _ _ _ _ (by omega : (reportBody tid cc cid ds args).length ≤ 88),
      hBlen]
    show calculate_crc (reportBody tid cc cid ds args ++ [0, 0]) = _
    exact calculate_crc_append_pair _ 0 0 _ 0 hBlen

/-- C1 witness: a concrete report for transaction id 300 (reduced mod 256),
command class 7, command id 0x80, data size 2 and arguments [1, 2]. -/
theorem construct_razer_report_layout_witness :
    ∃ r, construct_razer_report 300 7 0x80 2 [1, 2] = .ok r ∧
      r.length = 90 ∧
      r.getD 0 0 = 0x00 ∧
      r.getD 1 0 = ((300:Int) % 256).toNat ∧
      r.getD 2 0 = 0 ∧ r.getD 3 0 = 0 ∧ r.getD 4 0 = 0 ∧
      r.getD 5 0 = ((2:Int) % 256).toNat ∧
      r.getD 6 0 = ((7:Int) % 256).toNat ∧
      r.getD 7 0 = ((0x80:Int) % 256).toNat ∧
      (∀ i, i < 80 → r.getD (8 + i) 0 =
        if i < ([1, 2] : List Int).length then (([1, 2] : List Int).getD i 0).toNat else 0) ∧
      r.getD 89 0 = 0x00 ∧
      r.getD 88 0 = calculate_crc r :=
  construct_razer_report_layout 300 7 0x80 2 [1, 2] (by decide)
    (by intro a ha; fin_cases ha <;> constructor <;> decide)

theorem tryIface_trace (b : Behavior) (rep : List Nat) (iface : Interface)
    (st : ExchangeState) : (tryIface b rep iface st).2.2 = openTrace b rep iface := by
  unfold tryIface openTrace secondTry
  rcases h0 : b rep iface.path 0 with r | m | m | m <;> simp
  · split <;> rfl
  · rcases h1 : b rep iface.path 1 with r | m' | m' | m'
    · simp only []
      split <;> rfl
    all_goals rfl
  · rcases h1 : b rep iface.path 1 with r | m' | m' | m'
    · simp only []
      split <;> rfl
    all_goals rfl

theorem openTrace_fst (b : Behavior) (rep : List Nat) (iface : Interface)
    (e : String × Nat) (he : e ∈ openTrace b rep iface) : e.1 = iface.path := by
  unfold openTrace at he
  rcases h : b rep iface.path 0 with r | m | m | m <;> rw [h] at he <;> simp at he
  · simp [he]
  · rcases he with h' | h' <;> simp [h']
  · simp [he]
  · rcases he with h' | h' <;> simp [h']

theorem openTrace_length (b : Behavior) (rep : List Nat) (iface : Interface) :
    (openTrace b rep iface).length ≤ 2 := by
  unfold openTrace
  rcases b rep iface.path 0 <;> simp

theorem openTrace_snd_one (b : Behavior) (rep : List Nat) (iface : Interface)
    (p : String) (he : (p, 1) ∈ openTrace b rep iface) :
    (∃ m, b rep iface.path 0 = .ioError m) ∨ (∃ m, b rep iface.path 0 = .otherError m) := by
  unfold openTrace at he
  rcases h : b rep iface.path 0 with r | m | m | m <;> rw [h] at he <;> simp at he
  · exact Or.inl ⟨m, rfl⟩
  · exact Or.inr ⟨m, rfl⟩

theorem openTrace_of_ioError (b : Behavior) (rep : List Nat) (iface : Interface)
    (m : String) (h : b rep iface.path 0 = .ioError m) :
    openTrace b rep iface = [(iface.path, 0), (iface.path, 1)] := by
  unfold openTrace
  rw [h]

theorem tryIface_of_valid_response (b : Behavior) (rep : List Nat) (iface : Interface)
    (st : ExchangeState) (r : List Nat) (h : b rep iface.path 0 = .response r)
    (hv : validate_response (some r) = true) :
    tryIface b rep iface st = (.success r, st, [(iface.path, 0)]) := by
  unfold tryIface
  rw [h]
  simp [hv]

/-- The trace of an exchange is the concatenation of per-interface open blocks
over an initial segment of the interface list; the segment is the whole list
when no interface produced a validated response. -/
theorem exchangeLoop_trace (b : Behavior) (rep : List Nat) (dev : Descriptor)
    (desc : String) : ∀ (ifaces : List Interface) (st : ExchangeState),
    ∃ tried rest, ifaces = tried ++ rest ∧
      (exchangeLoop b rep dev desc ifaces st).2.2 =
        tried.flatMap (openTrace b rep) ∧
      ((exchangeLoop b rep dev desc ifaces st).1 = none → rest = []) := by
  intro ifaces
  induction ifaces with
  | nil => exact fun st => ⟨[], [], rfl, rfl, fun _ => rfl⟩
  | cons iface t ih =>
    intro st
    rcases htry : tryIface b rep iface
        { st with attempted := st.attempted ++ [iface.interface_number.getD (-1)] } with
      ⟨res, st2, tr⟩
    have htr : tr = openTrace b rep iface := by
      have := tryIface_trace b rep iface
        { st with attempted := st.attempted ++ [iface.interface_number.getD (-1)] }
      rw [htry] at this
      exact this
    rcases res with r | _
    · exact ⟨[iface], t, rfl, by simp [exchangeLoop, htry, htr], by simp [exchangeLoop, htry]⟩
    · obtain ⟨tried, rest, hsplit, htrace, hnone⟩ := ih st2
      exact ⟨iface :: tried, rest, by simp [hsplit],
        by simp [exchangeLoop, htry, htr, htrace],
        by simpa [exchangeLoop, htry] using hnone⟩

theorem openTrace_getLast (b : Behavior) (rep : List Nat) (iface : Interface) :
    ∃ k, (openTrace b rep iface).getLast? = some (iface.path, k) := by
  unfold openTrace
  rcases b rep iface.path 0 <;> exact ⟨_, rfl⟩

/-- On a validated response, the exchange records the path whose open produced
it (the last open in the trace) as the new preferred interface path. -/
theorem exchangeLoop_success_preferred (b : Behavior) (rep : List Nat) (dev : Descriptor)
    (desc : String) : ∀ (ifaces : List Interface) (st : ExchangeState) (resp : List Nat),
    (exchangeLoop b rep dev desc ifaces st).1 = some resp →
    ∃ q k, ((exchangeLoop b rep dev desc ifaces st).2.2).getLast? = some (q, k) ∧
      (exchangeLoop b rep dev desc ifaces st).2.1.preferred_interface_path = some q := by
  intro ifaces
  induction ifaces with
  | nil => intro st resp h; simp [exchangeLoop] at h
  | cons iface t ih =>
    intro st resp h
    rcases htry : tryIface b rep iface
        { st with attempted := st.attempted ++ [iface.interface_number.getD (-1)] } with
      ⟨res, st2, tr⟩
    have htr : tr = openTrace b rep iface := by
      have := tryIface_trace b rep iface
        { st with attempted := st.attempted ++ [iface.interface_number.getD (-1)] }
      rw [htry] at this
      exact this
    rcases res with r | _
    · obtain ⟨k, hk⟩ := openTrace_getLast b rep iface
      exact ⟨iface.path, k, by simp [exchangeLoop, htry, htr, hk],
        by simp [exchangeLoop, htry, stampSuccess]⟩
    · have hres : (exchangeLoop b rep dev desc t st2).1 = some resp := by
        simpa [exchangeLoop, htry] using h
      obtain ⟨q, k, hlast, hpref⟩ := ih st2 resp hres
      have hne : (exchangeLoop b rep dev desc t st2).2.2 ≠ [] := by
        intro hnil
        rw [hnil] at hlast
        simp at hlast
      refine ⟨q, k, ?_, by simpa [exchangeLoop, htry] using hpref⟩
      simp only [exchangeLoop, htry]
      rw [List.getLast?_append_of_ne_nil _ hne]
      exact hlast

/-- The interface with the cached preferred path sorts to the front. -/
theorem sorted_head_preferred (pref : Option String) (ifaces : List Interface)
    (x : Interface) (p : String) (hnodup : (ifaces.map Interface.path).Nodup)
    (hp : pref = some p) (hx : x ∈ ifaces) (hxp : x.path = p) :
    (sortInterfaces pref ifaces).head? = some x := by
  have hperm := List.perm_insertionSort (ifaceLe pref) ifaces
  have hsorted := List.sorted_insertionSort (ifaceLe pref) ifaces
  have hmem : x ∈ sortInterfaces pref ifaces := hperm.mem_iff.mpr hx
  unfold sortInterfaces at *
  rcases hs : List.insertionSort (ifaceLe pref) ifaces with _ | ⟨y, t⟩
  · rw [hs] at hmem; simp at hmem
  · rw [hs] at hmem hperm hsorted
    rcases List.mem_cons.mp hmem with hxy | hxt
    · rw [hxy]; rfl
    · exfalso
      have hle : ifaceLe pref y x := (List.sorted_cons.mp hsorted).1 x hxt
      have hkx : (ifaceSortKey pref x).1 = 0 := by
        simp [ifaceSortKey, hp, hxp]
      have hky : (ifaceSortKey pref y).1 = 0 := by
        unfold ifaceLe keyLe at hle
        omega
      have hyp : y.path = p := by
        simp only [ifaceSortKey, hp] at hky
        by_cases h : y.path = p
        · exact h
        · rw [if_neg h] at hky; omega
      have hnodup' : ((y :: t).map Interface.path).Nodup :=
        ((hperm.map Interface.path).nodup_iff).mpr hnodup
      have : y.path ∈ t.map Interface.path := by
        exact List.mem_map.mpr ⟨x, hxt, by rw [hxp, hyp]⟩
      simp only [List.map_cons, List.nodup_cons] at hnodup'
      exact hnodup'.1 this

/-- C4 (amended) counterexample to the original claim: with no cached preferred
path and interfaces numbered 3 and -1, the exchange opens the path of the
interface with unknown number -1 first — -1 sorts before the other numbers in
ascending order, not last. -/
theorem send_and_receive_report_unknown_first :
    ((send_and_receive_report (fun _ _ _ => .ioError "io")
        { interfaces := [⟨"a", some 3⟩, ⟨"b", some (-1)⟩] } [] "cmd").2.2).map Prod.fst =
      ["b", "b", "a", "a"] := by decide

/-- C4 (amended): `send_and_receive_report` attempts interfaces in the order of
the stable sort by (preferred-path first, interface number 0 next, then
ascending interface number — so an unknown number recorded as -1 sorts first
among the rest, and an entry missing the number field sorts last via the 999
default): the sorted list is a permutation of the descriptor's interfaces,
sorted by the source's key; a uniquely-pathed cached preferred interface is
attempted first; the opens of the exchange are the per-interface blocks of an
initial segment of that order (the whole order when no response validates);
and on a validated response the succeeding interface's path is recorded as the
descriptor's new preferred path. -/
theorem send_and_receive_report_interface_order (b : Behavior) (dev : Descriptor)
    (report : List Nat) (desc : String) (pref_iface : Interface) (p : String) :
    List.Perm (sortInterfaces dev.preferred_interface_path dev.interfaces) dev.interfaces ∧
    List.Sorted (ifaceLe dev.preferred_interface_path)
      (sortInterfaces dev.preferred_interface_path dev.interfaces) ∧
    ((dev.interfaces.map Interface.path).Nodup →
      dev.preferred_interface_path = some p →
      pref_iface ∈ dev.interfaces → pref_iface.path = p →
      (sortInterfaces dev.preferred_interface_path dev.interfaces).head? = some pref_iface) ∧
    (∃ tried rest,
      sortInterfaces dev.preferred_interface_path dev.interfaces = tried ++ rest ∧
      (send_and_receive_report b dev report desc).2.2 =
        tried.flatMap (openTrace b (0 :: report)) ∧
      ((send_and_receive_report b dev report desc).1 = none → rest = [])) ∧
    (∀ resp, (send_and_receive_report b dev report desc).1 = some resp →
      ∃ q k, ((send_and_receive_report b dev report desc).2.2).getLast? = some (q, k) ∧
        (send_and_receive_report b dev report desc).2.1.preferred_interface_path = some q) :=
  ⟨List.perm_insertionSort _ _,
   List.sorted_insertionSort _ _,
   fun hnodup hp hx hxp => sorted_head_preferred _ _ _ _ hnodup hp hx hxp,
   exchangeLoop_trace b (0 :: report) dev desc _ _,
   fun resp h => exchangeLoop_success_preferred b (0 :: report) dev desc _ _ resp h⟩

/-- C4 witness: interfaces presented out of order with a cached preferred path
"z"; the preferred interface sorts first and, succeeding, is re-recorded. -/
theorem send_and_receive_report_interface_order_witness :
    (sortInterfaces (some "z") [⟨"x", some 2⟩, ⟨"y", some 0⟩, ⟨"z", some 1⟩]).head? =
      some ⟨"z", some 1⟩ ∧
    (∃ q k, ((send_and_receive_report (fun _ _ _ => .response ((List.replicate 90 0).set 1 2))
        { interfaces := [⟨"x", some 2⟩, ⟨"y", some 0⟩, ⟨"z", some 1⟩],
          preferred_interface_path := some "z" } [] "cmd").2.2).getLast? = some (q, k) ∧
      (send_and_receive_report (fun _ _ _ => .response ((List.replicate 90 0).set 1 2))
        { interfaces := [⟨"x", some 2⟩, ⟨"y", some 0⟩, ⟨"z", some 1⟩],
          preferred_interface_path := some "z" } [] "cmd").2.1.preferred_interface_path =
        some q) := by
  have h := send_and_receive_report_interface_order
    (fun _ _ _ => .response ((List.replicate 90 0).set 1 2))
    { interfaces := [⟨"x", some 2⟩, ⟨"y", some 0⟩, ⟨"z", some 1⟩],
      preferred_interface_path := some "z" } [] "cmd" ⟨"z", some 1⟩ "z"
  exact ⟨h.2.2.1 (by decide) rfl (by decide) rfl,
    h.2.2.2.2 ((List.replicate 90 0).set 1 2) (by decide)⟩

theorem flatMap_filter_path_nil (b : Behavior) (rep : List Nat) (p : String)
    (l : List Interface) (hp : p ∉ l.map Interface.path) :
    (l.flatMap (openTrace b rep)).filter (fun e => decide (e.1 = p)) = [] := by
  apply List.filter_eq_nil_iff.mpr
  intro e he
  obtain ⟨i, hi, hei⟩ := List.mem_flatMap.mp he
  have : e.1 = i.path := openTrace_fst b rep i e hei
  simp only [decide_eq_true_eq]
  intro hep
  exact hp (List.mem_map.mpr ⟨i, hi, by rw [← this, hep]⟩)

theorem flatMap_filter_path_le_two (b : Behavior) (rep : List Nat) (p : String)
    (l : List Interface) (hnodup : (l.map Interface.path).Nodup) :
    ((l.flatMap (openTrace b rep)).filter (fun e => decide (e.1 = p))).length ≤ 2 := by
  induction l with
  | nil => simp
  | cons i t ih =>
    simp only [List.map_cons, List.nodup_cons] at hnodup
    rw [List.flatMap_cons, List.filter_append, List.length_append]
    by_cases hip : i.path = p
    · have h1 : ((openTrace b rep i).filter (fun e => decide (e.1 = p))).length ≤ 2 :=
        le_trans ((openTrace b rep i).length_filter_le _) (openTrace_length b rep i)
      have h2 : (t.flatMap (openTrace b rep)).filter (fun e => decide (e.1 = p)) = [] :=
        flatMap_filter_path_nil b rep p t (by rw [← hip]; exact hnodup.1)
      rw [h2]
      simpa using h1
    · have h1 : (openTrace b rep i).filter (fun e => decide (e.1 = p)) = [] := by
        apply List.filter_eq_nil_iff.mpr
        intro e he
        have := openTrace_fst b rep i e he
        simp [this, hip]
      rw [h1]
      simpa using ih hnodup.2

/-- Within one exchange, the first interface whose attempt-0 response
validates supplies the result, and its open is the last one performed. -/
theorem exchangeLoop_first_valid (b : Behavior) (rep : List Nat) (dev : Descriptor)
    (desc : String) : ∀ (ifaces : List Interface) (st : ExchangeState) (p : String)
    (r : List Nat),
    (p, 0) ∈ (exchangeLoop b rep dev desc ifaces st).2.2 →
    b rep p 0 = .response r → validate_response (some r) = true →
    (exchangeLoop b rep dev desc ifaces st).1 = some r ∧
    ((exchangeLoop b rep dev desc ifaces st).2.2).getLast? = some (p, 0) := by
  intro ifaces
  induction ifaces with
  | nil => intro st p r hm _ _; simp [exchangeLoop] at hm
  | cons iface t ih =>
    intro st p r hm hb hv
    rcases htry : tryIface b rep iface
        { st with attempted := st.attempted ++ [iface.interface_number.getD (-1)] } with
      ⟨res, st2, tr⟩
    have htr : tr = openTrace b rep iface := by
      have := tryIface_trace b rep iface
        { st with attempted := st.attempted ++ [iface.interface_number.getD (-1)] }
      rw [htry] at this
      exact this
    rcases res with r' | _
    · have hm' : (p, 0) ∈ tr := by simpa [exchangeLoop, htry] using hm
      have hp : p = iface.path := by
        have := openTrace_fst b rep iface (p, 0) (htr ▸ hm')
        simpa using this
      have hvalid := tryIface_of_valid_response b rep iface
        { st with attempted := st.attempted ++ [iface.interface_number.getD (-1)] }
        r (hp ▸ hb) hv
      rw [htry] at hvalid
      simp only [Prod.mk.injEq, TryResult.success.injEq] at hvalid
      obtain ⟨hrr, -, htrr⟩ := hvalid
      constructor
      · simp [exchangeLoop, htry, hrr]
      · simp [exchangeLoop, htry, htrr, hp]
    · have hnotvalid : ¬ p = iface.path := by
        intro hp
        have hvalid := tryIface_of_valid_response b rep iface
          { st with attempted := st.attempted ++ [iface.interface_number.getD (-1)] }
          r (hp ▸ hb) hv
        rw [htry] at hvalid
        exact absurd (congrArg Prod.fst hvalid) (by simp)
      have hm' : (p, 0) ∈ tr ++ (exchangeLoop b rep dev desc t st2).2.2 := by
        simpa [exchangeLoop, htry] using hm
      have hmem2 : (p, 0) ∈ (exchangeLoop b rep dev desc t st2).2.2 := by
        rcases List.mem_append.mp hm' with h1 | h2
        · exact absurd (by simpa using openTrace_fst b rep iface (p, 0) (htr ▸ h1)) hnotvalid
        · exact h2
      obtain ⟨hres, hlast⟩ := ih st2 p r hmem2 hb hv
      have hne : (exchangeLoop b rep dev desc t st2).2.2 ≠ [] := List.ne_nil_of_mem hmem2
      refine ⟨by simpa [exchangeLoop, htry] using hres, ?_⟩
      simp only [exchangeLoop, htry]
      rw [List.getLast?_append_of_ne_nil _ hne]
      exact hlast

theorem secondTry_of_valid_response (b : Behavior) (rep : List Nat) (iface : Interface)
    (st : ExchangeState) (r : List Nat) (h : b rep iface.path 1 = .response r)
    (hv : validate_response (some r) = true) :
    secondTry b rep iface st = (.success r, st, [(iface.path, 0), (iface.path, 1)]) := by
  unfold secondTry
  rw [h]
  simp [hv]

/-- After a retryable first-attempt error, a validated attempt-1 response
makes the whole per-interface loop succeed with that response. -/
theorem tryIface_retry_valid (b : Behavior) (rep : List Nat) (iface : Interface)
    (st : ExchangeState) (r : List Nat)
    (h0 : (∃ m, b rep iface.path 0 = .ioError m) ∨
      (∃ m, b rep iface.path 0 = .otherError m))
    (h1 : b rep iface.path 1 = .response r)
    (hv : validate_response (some r) = true) :
    ∃ st', tryIface b rep iface st =
      (.success r, st', [(iface.path, 0), (iface.path, 1)]) := by
  rcases h0 with ⟨m, hm⟩ | ⟨m, hm⟩
  · unfold tryIface
    rw [hm]
    exact ⟨_, secondTry_of_valid_response b rep iface _ r h1 hv⟩
  · unfold tryIface
    rw [hm]
    exact ⟨_, secondTry_of_valid_response b rep iface _ r h1 hv⟩

/-- A response that validates on the retry of an opened interface is returned
by the exchange, and the retry is the last open performed. -/
theorem exchangeLoop_retry_valid (b : Behavior) (rep : List Nat) (dev : Descriptor)
    (desc : String) : ∀ (ifaces : List Interface) (st : ExchangeState) (p : String)
    (r : List Nat),
    (p, 1) ∈ (exchangeLoop b rep dev desc ifaces st).2.2 →
    b rep p 1 = .response r → validate_response (some r) = true →
    (exchangeLoop b rep dev desc ifaces st).1 = some r ∧
    ((exchangeLoop b rep dev desc ifaces st).2.2).getLast? = some (p, 1) := by
  intro ifaces
  induction ifaces with
  | nil => intro st p r hm _ _; simp [exchangeLoop] at hm
  | cons iface t ih =>
    intro st p r hm hb hv
    rcases htry : tryIface b rep iface
        { st with attempted := st.attempted ++ [iface.interface_number.getD (-1)] } with
      ⟨res, st2, tr⟩
    have htr : tr = openTrace b rep iface := by
      have := tryIface_trace b rep iface
        { st with attempted := st.attempted ++ [iface.interface_number.getD (-1)] }
      rw [htry] at this
      exact this
    rcases res with r' | _
    · have hm' : (p, 1) ∈ tr := by simpa [exchangeLoop, htry] using hm
      have hp : p = iface.path := by
        have := openTrace_fst b rep iface (p, 1) (htr ▸ hm')
        simpa using this
      have h0 := openTrace_snd_one b rep iface p (htr ▸ hm')
      obtain ⟨st', hvalid⟩ := tryIface_retry_valid b rep iface
        { st with attempted := st.attempted ++ [iface.interface_number.getD (-1)] }
        r h0 (hp ▸ hb) hv
      rw [htry] at hvalid
      simp only [Prod.mk.injEq, TryResult.success.injEq] at hvalid
      obtain ⟨hrr, -, htrr⟩ := hvalid
      constructor
      · simp [exchangeLoop, htry, hrr]
      · simp [exchangeLoop, htry, htrr, hp]
    · have hnotp : ¬ (p, 1) ∈ tr := by
        intro hin
        have hp : p = iface.path := by
          have := openTrace_fst b rep iface (p, 1) (htr ▸ hin)
          simpa using this
        have h0 := openTrace_snd_one b rep iface p (htr ▸ hin)
        obtain ⟨st', hvalid⟩ := tryIface_retry_valid b rep iface
          { st with attempted := st.attempted ++ [iface.interface_number.getD (-1)] }
          r h0 (hp ▸ hb) hv
        rw [htry] at hvalid
        exact absurd (congrArg Prod.fst hvalid) (by simp)
      have hm' : (p, 1) ∈ tr ++ (exchangeLoop b rep dev desc t st2).2.2 := by
        simpa [exchangeLoop, htry] using hm
      have hmem2 : (p, 1) ∈ (exchangeLoop b rep dev desc t st2).2.2 := by
        rcases List.mem_append.mp hm' with h1 | h2
        · exact absurd h1 hnotp
        · exact h2
      obtain ⟨hres, hlast⟩ := ih st2 p r hmem2 hb hv
      have hne : (exchangeLoop b rep dev desc t st2).2.2 ≠ [] := List.ne_nil_of_mem hmem2
      refine ⟨by simpa [exchangeLoop, htry] using hres, ?_⟩
      simp only [exchangeLoop, htry]
      rw [List.getLast?_append_of_ne_nil _ hne]
      exact hlast

/-- C5: within one `send_and_receive_report` exchange, (i) when interface
paths are unique each path is opened at most twice; (ii) a second attempt on
an interface happens only after a transport-level I/O error (or an unexpected
error) on the first attempt — never after a `ValueError` or a response that
fails validation; (iii) a first-attempt I/O error on an opened interface is
always retried once on the same interface; (iv) the first response that
validates is returned and its open is the last one performed — no further
attempt or interface follows it; and (v) likewise for a response that
validates on the retry of an interface: it is returned and the retry is the
last open performed. -/
theorem send_and_receive_report_retry_policy (b : Behavior) (dev : Descriptor)
    (report : List Nat) (desc : String) (p m : String) (r : List Nat) :
    ((dev.interfaces.map Interface.path).Nodup →
      (((send_and_receive_report b dev report desc).2.2).filter
        (fun e => decide (e.1 = p))).length ≤ 2) ∧
    ((p, 1) ∈ (send_and_receive_report b dev report desc).2.2 →
      (∃ m', b (0 :: report) p 0 = .ioError m') ∨
      (∃ m', b (0 :: report) p 0 = .otherError m')) ∧
    ((p, 0) ∈ (send_and_receive_report b dev report desc).2.2 →
      b (0 :: report) p 0 = .ioError m →
      (p, 1) ∈ (send_and_receive_report b dev report desc).2.2) ∧
    ((p, 0) ∈ (send_and_receive_report b dev report desc).2.2 →
      b (0 :: report) p 0 = .response r → validate_response (some r) = true →
      (send_and_receive_report b dev report desc).1 = some r ∧
      ((send_and_receive_report b dev report desc).2.2).getLast? = some (p, 0)) ∧
    ((p, 1) ∈ (send_and_receive_report b dev report desc).2.2 →
      b (0 :: report) p 1 = .response r → validate_response (some r) = true →
      (send_and_receive_report b dev report desc).1 = some r ∧
      ((send_and_receive_report b dev report desc).2.2).getLast? = some (p, 1)) := by
  obtain ⟨tried, rest, hsplit, htrace, -⟩ := exchangeLoop_trace b (0 :: report) dev desc
    (sortInterfaces dev.preferred_interface_path dev.interfaces) ⟨[], [], 0⟩
  have htried_sub : ∀ i, i ∈ tried →
      i ∈ sortInterfaces dev.preferred_interface_path dev.interfaces := by
    intro i hi
    rw [hsplit]
    exact List.mem_append.mpr (Or.inl hi)
  refine ⟨?_, ?_, ?_, ?_, ?_⟩
  · intro hnodup
    show (((exchangeLoop b (0 :: report) dev desc _ _).2.2).filter _).length ≤ 2
    rw [htrace]
    apply flatMap_filter_path_le_two
    have hperm := List.perm_insertionSort (ifaceLe dev.preferred_interface_path) dev.interfaces
    have hsorted_nodup : ((sortInterfaces dev.preferred_interface_path
        dev.interfaces).map Interface.path).Nodup :=
      ((hperm.map Interface.path).nodup_iff).mpr hnodup
    rw [hsplit, List.map_append] at hsorted_nodup
    exact hsorted_nodup.of_append_left
  · intro hmem
    rw [show (send_and_receive_report b dev report desc).2.2 =
      (exchangeLoop b (0 :: report) dev desc _ ⟨[], [], 0⟩).2.2 from rfl, htrace] at hmem
    obtain ⟨i, hi, hei⟩ := List.mem_flatMap.mp hmem
    have hp : i.path = p := by simpa using (openTrace_fst b (0 :: report) i (p, 1) hei).symm
    exact hp ▸ openTrace_snd_one b (0 :: report) i p hei
  · intro hmem hio
    rw [show (send_and_receive_report b dev report desc).2.2 =
      (exchangeLoop b (0 :: report) dev desc _ ⟨[], [], 0⟩).2.2 from rfl, htrace] at hmem ⊢
    obtain ⟨i, hi, hei⟩ := List.mem_flatMap.mp hmem
    have hp : i.path = p := by simpa using (openTrace_fst b (0 :: report) i (p, 0) hei).symm
    have hblock := openTrace_of_ioError b (0 :: report) i m (hp ▸ hio)
    exact List.mem_flatMap.mpr ⟨i, hi, by rw [hblock, hp]; simp⟩
  · intro hmem hb hv
    exact exchangeLoop_first_valid b (0 :: report) dev desc _ ⟨[], [], 0⟩ p r hmem hb hv
  · intro hmem hb hv
    exact exchangeLoop_retry_valid b (0 :: report) dev desc _ ⟨[], [], 0⟩ p r hmem hb hv

/-- C5 witness: interface "a" (number 0, tried first) I/O-errors and is retried
exactly once; interface "b" then answers validly, is returned, and its single
open ends the exchange.  In a second scenario the only interface I/O-errors on
attempt 0 and answers validly on the retry, whose response is returned and
whose open ends the exchange. -/
theorem send_and_receive_report_retry_policy_witness :
    (("a", 1) ∈ (send_and_receive_report c5Behavior c5Device [] "c").2.2 ∧
     (send_and_receive_report c5Behavior c5Device [] "c").1 = some demoResp ∧
     ((send_and_receive_report c5Behavior c5Device [] "c").2.2).getLast? = some ("b", 0)) ∧
    ((send_and_receive_report c5RetryBehavior c6Device [] "c").1 = some demoResp ∧
     ((send_and_receive_report c5RetryBehavior c6Device [] "c").2.2).getLast? =
       some ("p", 1)) := by
  have hA := send_and_receive_report_retry_policy c5Behavior c5Device [] "c" "a" "io" demoResp
  have hB := send_and_receive_report_retry_policy c5Behavior c5Device [] "c" "b" "io" demoResp
  have hR := send_and_receive_report_retry_policy c5RetryBehavior c6Device [] "c" "p" "io"
    demoResp
  exact ⟨⟨hA.2.2.1 (by decide) rfl,
    (hB.2.2.2.1 (by decide) rfl (by decide)).1,
    (hB.2.2.2.1 (by decide) rfl (by decide)).2⟩,
    (hR.2.2.2.2 (by decide) rfl (by decide)).1,
    (hR.2.2.2.2 (by decide) rfl (by decide)).2⟩

theorem lastN_length_le (n : Nat) (l : List String) : (lastN n l).length ≤ n := by
  simp [lastN]
  omega

/-- The result, trace, and stamped diagnostics of an exchange do not depend on
the prior diagnostic fields of the descriptor; on the success exit the
last-used-interface field and preferred path are freshly written, while on the
failure exit those two fields keep their prior values. -/
theorem exchangeLoop_diag (b : Behavior) (rep : List Nat) (desc : String)
    (dev dev' : Descriptor) : ∀ (ifaces : List Interface) (st : ExchangeState),
    (exchangeLoop b rep dev desc ifaces st).1 = (exchangeLoop b rep dev' desc ifaces st).1 ∧
    (exchangeLoop b rep dev desc ifaces st).2.1.diag_last_ok =
      some (exchangeLoop b rep dev desc ifaces st).1.isSome ∧
    (exchangeLoop b rep dev desc ifaces st).2.1.diag_last_command = some desc ∧
    (exchangeLoop b rep dev desc ifaces st).2.1.diag_last_attempted_interfaces =
      (exchangeLoop b rep dev' desc ifaces st).2.1.diag_last_attempted_interfaces ∧
    (exchangeLoop b rep dev desc ifaces st).2.1.diag_last_attempted_interfaces.isSome = true ∧
    (exchangeLoop b rep dev desc ifaces st).2.1.diag_last_io_errors =
      (exchangeLoop b rep dev' desc ifaces st).2.1.diag_last_io_errors ∧
    (∃ l, (exchangeLoop b rep dev desc ifaces st).2.1.diag_last_io_errors = some l ∧
      l.length ≤ 5) ∧
    (exchangeLoop b rep dev desc ifaces st).2.1.diag_last_open_failed_count =
      (exchangeLoop b rep dev' desc ifaces st).2.1.diag_last_open_failed_count ∧
    (exchangeLoop b rep dev desc ifaces st).2.1.diag_last_open_failed_count.isSome = true ∧
    ((exchangeLoop b rep dev desc ifaces st).1.isSome = true →
      (exchangeLoop b rep dev desc ifaces st).2.1.diag_last_interface =
        (exchangeLoop b rep dev' desc ifaces st).2.1.diag_last_interface ∧
      (exchangeLoop b rep dev desc ifaces st).2.1.preferred_interface_path =
        (exchangeLoop b rep dev' desc ifaces st).2.1.preferred_interface_path) ∧
    ((exchangeLoop b rep dev desc ifaces st).1 = none →
      (exchangeLoop b rep dev desc ifaces st).2.1.diag_last_interface =
        dev.diag_last_interface ∧
      (exchangeLoop b rep dev desc ifaces st).2.1.preferred_interface_path =
        dev.preferred_interface_path) := by
  intro ifaces
  induction ifaces with
  | nil =>
    intro st
    refine ⟨rfl, rfl, rfl, rfl, rfl, rfl, ⟨lastN 5 st.ioErrors, rfl, lastN_length_le 5 _⟩,
      rfl, rfl, ?_, fun _ => ⟨rfl, rfl⟩⟩
    intro h
    simp [exchangeLoop] at h
  | cons iface t ih =>
    intro st
    rcases htry : tryIface b rep iface
        { st with attempted := st.attempted ++ [iface.interface_number.getD (-1)] } with
      ⟨res, st2, tr⟩
    rcases res with r | _
    · refine ⟨by simp [exchangeLoop, htry], by simp [exchangeLoop, htry, stampSuccess],
        by simp [exchangeLoop, htry, stampSuccess],
        by simp [exchangeLoop, htry, stampSuccess],
        by simp [exchangeLoop, htry, stampSuccess],
        by simp [exchangeLoop, htry, stampSuccess],
        ⟨lastN 5 st2.ioErrors, by simp [exchangeLoop, htry, stampSuccess],
          lastN_length_le 5 _⟩,
        by simp [exchangeLoop, htry, stampSuccess],
        by simp [exchangeLoop, htry, stampSuccess],
        fun _ => ⟨by simp [exchangeLoop, htry, stampSuccess],
          by simp [exchangeLoop, htry, stampSuccess]⟩, ?_⟩
      intro h
      simp [exchangeLoop, htry] at h
    · have h := ih st2
      refine ⟨by simpa [exchangeLoop, htry] using h.1,
        by simpa [exchangeLoop, htry] using h.2.1,
        by simpa [exchangeLoop, htry] using h.2.2.1,
        by simpa [exchangeLoop, htry] using h.2.2.2.1,
        by simpa [exchangeLoop, htry] using h.2.2.2.2.1,
        by simpa [exchangeLoop, htry] using h.2.2.2.2.2.1,
        by simpa [exchangeLoop, htry] using h.2.2.2.2.2.2.1,
        by simpa [exchangeLoop, htry] using h.2.2.2.2.2.2.2.1,
        by simpa [exchangeLoop, htry] using h.2.2.2.2.2.2.2.2.1,
        by simpa [exchangeLoop, htry] using h.2.2.2.2.2.2.2.2.2.1,
        by simpa [exchangeLoop, htry] using h.2.2.2.2.2.2.2.2.2.2⟩

/-- C9 (amended) counterexample to the original claim: two calls identical in
everything except the descriptor's previous `_diag_last_interface` value end,
after an exchange in which every interface fails, with different (stale)
`_diag_last_interface` values — the failure exit does not overwrite that
field. -/
theorem send_and_receive_report_stale_last_interface :
    (send_and_receive_report (fun _ _ _ => .ioError "io")
      { interfaces := [⟨"a", some 0⟩], diag_last_interface := some 7 }
      [] "cmd").2.1.diag_last_interface = some 7 ∧
    (send_and_receive_report (fun _ _ _ => .ioError "io")
      { interfaces := [⟨"a", some 0⟩], diag_last_interface := some 9 }
      [] "cmd").2.1.diag_last_interface = some 9 := by
  exact ⟨rfl, rfl⟩

/-- C9 (amended): a call to `send_and_receive_report` overwrites the success
flag (with this call's outcome), the last command description, the
attempted-interface list, the trimmed I/O error list (at most 5 entries) and
the open-failure count on both the success and the exhausted exit,
independently of their previous values; the most-recent-interface field and
the preferred path are likewise freshly written on the success exit, but are
left at their prior values on the exhausted exit. -/
theorem send_and_receive_report_diag_overwrite (b : Behavior) (d d' : Descriptor)
    (report : List Nat) (desc : String)
    (hifc : d.interfaces = d'.interfaces)
    (hpref : d.preferred_interface_path = d'.preferred_interface_path) :
    (send_and_receive_report b d report desc).1 =
      (send_and_receive_report b d' report desc).1 ∧
    (send_and_receive_report b d report desc).2.1.diag_last_ok =
      some (send_and_receive_report b d report desc).1.isSome ∧
    (send_and_receive_report b d report desc).2.1.diag_last_command = some desc ∧
    (send_and_receive_report b d report desc).2.1.diag_last_attempted_interfaces =
      (send_and_receive_report b d' report desc).2.1.diag_last_attempted_interfaces ∧
    (send_and_receive_report b d report desc).2.1.diag_last_attempted_interfaces.isSome
      = true ∧
    (send_and_receive_report b d report desc).2.1.diag_last_io_errors =
      (send_and_receive_report b d' report desc).2.1.diag_last_io_errors ∧
    (∃ l, (send_and_receive_report b d report desc).2.1.diag_last_io_errors = some l ∧
      l.length ≤ 5) ∧
    (send_and_receive_report b d report desc).2.1.diag_last_open_failed_count =
      (send_and_receive_report b d' report desc).2.1.diag_last_open_failed_count ∧
    (send_and_receive_report b d report desc).2.1.diag_last_open_failed_count.isSome
      = true ∧
    ((send_and_receive_report b d report desc).1.isSome = true →
      (send_and_receive_report b d report desc).2.1.diag_last_interface =
        (send_and_receive_report b d' report desc).2.1.diag_last_interface ∧
      (send_and_receive_report b d report desc).2.1.preferred_interface_path =
        (send_and_receive_report b d' report desc).2.1.preferred_interface_path) ∧
    ((send_and_receive_report b d report desc).1 = none →
      (send_and_receive_report b d report desc).2.1.diag_last_interface =
        d.diag_last_interface ∧
      (send_and_receive_report b d report desc).2.1.preferred_interface_path =
        d.preferred_interface_path) := by
  unfold send_and_receive_report
  rw [← hifc, ← hpref]
  exact exchangeLoop_diag b (0 :: report) desc d d'
    (sortInterfaces d.preferred_interface_path d.interfaces) ⟨[], [], 0⟩

/-- C9 witness: two descriptors identical except for every prior diagnostic
value produce identical diagnostics after the same failing call. -/
theorem send_and_receive_report_diag_overwrite_witness :
    (send_and_receive_report (fun _ _ _ => .ioError "open failed")
      { interfaces := [⟨"a", some 0⟩], diag_last_ok := some true,
        diag_last_io_errors := some ["old"], diag_last_open_failed_count := some 3 }
      [] "c").2.1.diag_last_io_errors =
    (send_and_receive_report (fun _ _ _ => .ioError "open failed")
      { interfaces := [⟨"a", some 0⟩], diag_last_ok := some false,
        diag_last_io_errors := some ["other"], diag_last_open_failed_count := some 8 }
      [] "c").2.1.diag_last_io_errors ∧
    (send_and_receive_report (fun _ _ _ => .ioError "open failed")
      { interfaces := [⟨"a", some 0⟩], diag_last_ok := some true,
        diag_last_io_errors := some ["old"], diag_last_open_failed_count := some 3 }
      [] "c").2.1.diag_last_open_failed_count =
    (send_and_receive_report (fun _ _ _ => .ioError "open failed")
      { interfaces := [⟨"a", some 0⟩], diag_last_ok := some false,
        diag_last_io_errors := some ["other"], diag_last_open_failed_count := some 8 }
      [] "c").2.1.diag_last_open_failed_count := by
  have h := send_and_receive_report_diag_overwrite (fun _ _ _ => .ioError "open failed")
    { interfaces := [⟨"a", some 0⟩], diag_last_ok := some true,
      diag_last_io_errors := some ["old"], diag_last_open_failed_count := some 3 }
    { interfaces := [⟨"a", some 0⟩], diag_last_ok := some false,
      diag_last_io_errors := some ["other"], diag_last_open_failed_count := some 8 }
    [] "c" rfl rfl
  exact ⟨h.2.2.2.2.2.1, h.2.2.2.2.2.2.2.1⟩

theorem battery_attempt_none_of_unusable (o : Option (List Nat))
    (h : usable o = false) : battery_attempt o = none := by
  unfold usable at h
  unfold battery_attempt
  rcases o with _ | resp
  · rfl
  · simp at h
    simp [h]

theorem charging_attempt_none_of_unusable (o : Option (List Nat))
    (h : usable o = false) : charging_attempt o = none := by
  unfold usable at h
  unfold charging_attempt
  rcases o with _ | resp
  · rfl
  · simp at h
    simp [h]

/-- C6: whenever either of the (at most two) transport attempts of
`get_battery_level` yields a response longer than 10 bytes, the function
returns `min(max(round(raw / 255 * 100), 0), 100)` (`battery_scale`) of the
byte at response index 10; the scaling maps 0→0, 13→5, 51→20, 64→25, 128→50,
191→75, 200→78, 230→90, 255→100, and its result never exceeds 100 (nor drops
below 0, being a natural number). -/
theorem get_battery_level_scaling (b1 b2 : Behavior) (device : Descriptor)
    (rep resp : List Nat)
    (hrep : construct_razer_report (device.transaction_id.getD 0x1F) 0x07 0x80 0x02
      [0x00, 0x00] = .ok rep) :
    ((send_and_receive_report b1 device rep "get_battery_level").1 = some resp →
      10 < resp.length →
      (get_battery_level b1 b2 device).map Prod.fst =
        .ok ((battery_scale (resp.getD 10 0) : Int))) ∧
    (usable (send_and_receive_report b1 device rep "get_battery_level").1 = false →
      (send_and_receive_report b2
        (send_and_receive_report b1 device rep "get_battery_level").2.1 rep
        "get_battery_level").1 = some resp →
      10 < resp.length →
      (get_battery_level b1 b2 device).map Prod.fst =
        .ok ((battery_scale (resp.getD 10 0) : Int))) ∧
    (∀ raw : Nat, battery_scale raw ≤ 100) ∧
    (battery_scale 0 = 0 ∧ battery_scale 13 = 5 ∧ battery_scale 51 = 20 ∧
     battery_scale 64 = 25 ∧ battery_scale 128 = 50 ∧ battery_scale 191 = 75 ∧
     battery_scale 200 = 78 ∧ battery_scale 230 = 90 ∧ battery_scale 255 = 100) := by
  refine ⟨?_, ?_, fun raw => min_le_right _ _, by decide⟩
  · intro h1 h2
    have hatt : battery_attempt
        (send_and_receive_report b1 device rep "get_battery_level").1 =
        some (battery_scale (resp.getD 10 0)) := by
      rw [h1]
      simp [battery_attempt, h2]
    simp [get_battery_level, hrep, Except.map, hatt]
  · intro h0 h1 h2
    have hatt0 : battery_attempt
        (send_and_receive_report b1 device rep "get_battery_level").1 = none :=
      battery_attempt_none_of_unusable _ h0
    have hatt1 : battery_attempt
        (send_and_receive_report b2
          (send_and_receive_report b1 device rep "get_battery_level").2.1 rep
          "get_battery_level").1 = some (battery_scale (resp.getD 10 0)) := by
      rw [h1]
      simp [battery_attempt, h2]
    simp [get_battery_level, hrep, Except.map, hatt0, hatt1]

/-- C6 witness: raw 200 scales to 78%. -/
theorem get_battery_level_scaling_witness :
    (get_battery_level c6Behavior c6Behavior c6Device).map Prod.fst = .ok 78 := by
  have h := (get_battery_level_scaling c6Behavior c6Behavior c6Device
    ((construct_razer_report 0x1F 0x07 0x80 0x02 [0x00, 0x00]).toOption.getD [])
    c6Resp rfl).1 (by decide) (by decide)
  rw [h]
  rfl

/-- C7: `get_battery_level` and `get_charging_status` make a second transport
attempt exactly when the first yields no response or one of at most 10 bytes,
succeed from the second attempt's usable response, and return -1 / false
respectively when both attempts fail; a usable response — on the first attempt
just as on the second — reports charging exactly when its byte at index 10 is
positive (`decide (0 < byte)`), so an unreachable device and an explicitly
not-charging device both yield false. -/
theorem battery_charging_retry (b1 b2 : Behavior) (device : Descriptor)
    (repB repC resp : List Nat)
    (hrepB : construct_razer_report (device.transaction_id.getD 0x1F) 0x07 0x80 0x02
      [0x00, 0x00] = .ok repB)
    (hrepC : construct_razer_report (device.transaction_id.getD 0x1F) 0x07 0x84 0x02
      [0x00, 0x00] = .ok repC) :
    (usable (send_and_receive_report b1 device repB "get_battery_level").1 = false →
      usable (send_and_receive_report b2
        (send_and_receive_report b1 device repB "get_battery_level").2.1 repB
        "get_battery_level").1 = false →
      (get_battery_level b1 b2 device).map Prod.fst = .ok (-1)) ∧
    (usable (send_and_receive_report b1 device repB "get_battery_level").1 = false →
      (send_and_receive_report b2
        (send_and_receive_report b1 device repB "get_battery_level").2.1 repB
        "get_battery_level").1 = some resp →
      10 < resp.length →
      (get_battery_level b1 b2 device).map Prod.fst =
        .ok ((battery_scale (resp.getD 10 0) : Int))) ∧
    (usable (send_and_receive_report b1 device repC "get_charging_status").1 = false →
      usable (send_and_receive_report b2
        (send_and_receive_report b1 device repC "get_charging_status").2.1 repC
        "get_charging_status").1 = false →
      (get_charging_status b1 b2 device).map Prod.fst = .ok false) ∧
    (usable (send_and_receive_report b1 device repC "get_charging_status").1 = false →
      (send_and_receive_report b2
        (send_and_receive_report b1 device repC "get_charging_status").2.1 repC
        "get_charging_status").1 = some resp →
      10 < resp.length →
      (get_charging_status b1 b2 device).map Prod.fst =
        .ok (decide (0 < resp.getD 10 0))) ∧
    ((send_and_receive_report b1 device repC "get_charging_status").1 = some resp →
      10 < resp.length →
      (get_charging_status b1 b2 device).map Prod.fst =
        .ok (decide (0 < resp.getD 10 0))) ∧
    ((send_and_receive_report b1 device repC "get_charging_status").1 = some resp →
      10 < resp.length → resp.getD 10 0 = 0 →
      (get_charging_status b1 b2 device).map Prod.fst = .ok false) := by
  refine ⟨?_, ?_, ?_, ?_, ?_, ?_⟩
  · intro h0 h1
    have hatt0 := battery_attempt_none_of_unusable _ h0
    have hatt1 := battery_attempt_none_of_unusable _ h1
    simp [get_battery_level, hrepB, Except.map, hatt0, hatt1]
  · intro h0 h1 h2
    have hatt0 := battery_attempt_none_of_unusable _ h0
    have hatt1 : battery_attempt
        (send_and_receive_report b2
          (send_and_receive_report b1 device repB "get_battery_level").2.1 repB
          "get_battery_level").1 = some (battery_scale (resp.getD 10 0)) := by
      rw [h1]
      simp [battery_attempt, h2]
    simp [get_battery_level, hrepB, Except.map, hatt0, hatt1]
  · intro h0 h1
    have hatt0 := charging_attempt_none_of_unusable _ h0
    have hatt1 := charging_attempt_none_of_unusable _ h1
    simp [get_charging_status, hrepC, Except.map, hatt0, hatt1]
  · intro h0 h1 h2
    have hatt0 := charging_attempt_none_of_unusable _ h0
    have hatt1 : charging_attempt
        (send_and_receive_report b2
          (send_and_receive_report b1 device repC "get_charging_status").2.1 repC
          "get_charging_status").1 = some (decide (0 < resp.getD 10 0)) := by
      rw [h1]
      simp [charging_attempt, h2]
    simp [get_charging_status, hrepC, Except.map, hatt0, hatt1]
  · intro h1 h2
    have hatt : charging_attempt
        (send_and_receive_report b1 device repC "get_charging_status").1 =
        some (decide (0 < resp.getD 10 0)) := by
      rw [h1]
      simp [charging_attempt, h2]
    simp [get_charging_status, hrepC, Except.map, hatt]
  · intro h1 h2 h3
    have hatt : charging_attempt
        (send_and_receive_report b1 device repC "get_charging_status").1 =
        some false := by
      rw [h1]
      show (if 10 < resp.length then some (decide (0 < resp.getD 10 0)) else none) = some false
      rw [if_pos h2, h3]
      rfl
    simp [get_charging_status, hrepC, Except.map, hatt]

/-- C7 witness: a device whose only interface always I/O-errors gives battery
-1 and charging false (both attempts exhausted); a first failing attempt
followed by a working one (the behaviours differ between the two calls)
succeeds with charging true from raw byte 1; and a usable first attempt with
raw byte 1 reports charging true directly. -/
theorem battery_charging_retry_witness :
    (get_battery_level (fun _ _ _ => .ioError "io") (fun _ _ _ => .ioError "io")
      c6Device).map Prod.fst = .ok (-1) ∧
    (get_charging_status (fun _ _ _ => .ioError "io") (fun _ _ _ => .ioError "io")
      c6Device).map Prod.fst = .ok false ∧
    (get_charging_status (fun _ _ _ => .ioError "io")
      (fun _ _ _ => .response (((List.replicate 90 0).set 1 2).set 10 1))
      c6Device).map Prod.fst = .ok true ∧
    (get_charging_status (fun _ _ _ => .response (((List.replicate 90 0).set 1 2).set 10 1))
      (fun _ _ _ => .ioError "io")
      c6Device).map Prod.fst = .ok true := by
  have hFail := battery_charging_retry (fun _ _ _ => .ioError "io")
    (fun _ _ _ => .ioError "io") c6Device
    ((construct_razer_report 0x1F 0x07 0x80 0x02 [0x00, 0x00]).toOption.getD [])
    ((construct_razer_report 0x1F 0x07 0x84 0x02 [0x00, 0x00]).toOption.getD [])
    [] rfl rfl
  have hSecond := battery_charging_retry (fun _ _ _ => .ioError "io")
    (fun _ _ _ => .response (((List.replicate 90 0).set 1 2).set 10 1)) c6Device
    ((construct_razer_report 0x1F 0x07 0x80 0x02 [0x00, 0x00]).toOption.getD [])
    ((construct_razer_report 0x1F 0x07 0x84 0x02 [0x00, 0x00]).toOption.getD [])
    (((List.replicate 90 0).set 1 2).set 10 1) rfl rfl
  have hFirst := battery_charging_retry
    (fun _ _ _ => .response (((List.replicate 90 0).set 1 2).set 10 1))
    (fun _ _ _ => .ioError "io") c6Device
    ((construct_razer_report 0x1F 0x07 0x80 0x02 [0x00, 0x00]).toOption.getD [])
    ((construct_razer_report 0x1F 0x07 0x84 0x02 [0x00, 0x00]).toOption.getD [])
    (((List.replicate 90 0).set 1 2).set 10 1) rfl rfl
  refine ⟨hFail.1 (by decide) (by decide), (hFail.2.2.1 (by decide) (by decide)), ?_, ?_⟩
  · have h := hSecond.2.2.2.1 (by decide) (by decide) (by decide)
    rw [h]
    rfl
  · have h := hFirst.2.2.2.2.1 (by decide) (by decide)
    rw [h]
    rfl

theorem addIfaceDedup_pid (d : Descriptor) (iface : Interface) :
    (addIfaceDedup d iface).pid = d.pid := by
  unfold addIfaceDedup
  split <;> rfl

theorem addIfaceDedup_nodup (d : Descriptor) (iface : Interface)
    (h : (d.interfaces.map Interface.path).Nodup) :
    ((addIfaceDedup d iface).interfaces.map Interface.path).Nodup := by
  unfold addIfaceDedup
  split
  · exact h
  · rename_i hc
    have : iface.path ∉ d.interfaces.map Interface.path := by
      intro hmem
      exact hc (List.elem_eq_true_of_mem hmem)
    simp [List.nodup_append, h, this]

theorem addToGroup_keys_mem (groups : List (ScanKey × Descriptor)) (key : ScanKey)
    (fresh : Descriptor) (iface : Interface) (h : key ∈ groups.map Prod.fst) :
    (addToGroup groups key fresh iface).map Prod.fst = groups.map Prod.fst := by
  induction groups with
  | nil => simp at h
  | cons g rest ih =>
    by_cases hk : g.1 = key
    · simp [addToGroup, hk]
    · have hmem : key ∈ rest.map Prod.fst := by
        rcases List.mem_cons.mp h with h1 | h1
        · exact absurd h1.symm hk
        · exact h1
      simp [addToGroup, hk, ih hmem]

theorem addToGroup_keys_not_mem (groups : List (ScanKey × Descriptor)) (key : ScanKey)
    (fresh : Descriptor) (iface : Interface) (h : key ∉ groups.map Prod.fst) :
    (addToGroup groups key fresh iface).map Prod.fst = groups.map Prod.fst ++ [key] := by
  induction groups with
  | nil => simp [addToGroup]
  | cons g rest ih =>
    have hk : ¬ g.1 = key := by
      intro he
      exact h (by simp [he])
    have hrest : key ∉ rest.map Prod.fst := by
      intro hmem
      exact h (by simp [hmem])
    simp [addToGroup, hk, ih hrest]

theorem addToGroup_values (groups : List (ScanKey × Descriptor)) (key : ScanKey)
    (fresh : Descriptor) (iface : Interface) (P : Descriptor → Prop)
    (hP : ∀ d d' , P d → d'.pid = d.pid →
      (d'.interfaces.map Interface.path).Nodup → P d')
    (hgroups : ∀ e ∈ groups, P e.2)
    (hinv : ∀ e ∈ groups, ((e.2.interfaces.map Interface.path)).Nodup)
    (hfresh : P (addIfaceDedup fresh iface))
    (e : ScanKey × Descriptor) (he : e ∈ addToGroup groups key fresh iface) : P e.2 := by
  induction groups with
  | nil =>
    simp [addToGroup] at he
    rw [he]
    exact hfresh
  | cons g rest ih =>
    by_cases hk : g.1 = key
    · simp only [addToGroup, if_pos hk] at he
      rcases List.mem_cons.mp he with h1 | h1
      · rw [h1]
        exact hP g.2 (addIfaceDedup g.2 iface) (hgroups g (by simp))
          (addIfaceDedup_pid g.2 iface)
          (addIfaceDedup_nodup g.2 iface (hinv g (by simp)))
      · exact hgroups _ (by simp [h1])
    · simp only [addToGroup, if_neg hk] at he
      rcases List.mem_cons.mp he with h1 | h1
      · rw [h1]
        exact hgroups g (by simp)
      · exact ih (fun e he => hgroups e (by simp [he]))
          (fun e he => hinv e (by simp [he])) h1

theorem addToGroup_groupsOk (groups : List (ScanKey × Descriptor)) (key : ScanKey)
    (fresh : Descriptor) (iface : Interface) (hg : GroupsOk groups)
    (hfresh : fresh.interfaces = [] ∧
      (RAZER_DEVICES.map Prod.fst).contains fresh.pid = true) :
    GroupsOk (addToGroup groups key fresh iface) := by
  have hfreshOk : DescOk (addIfaceDedup fresh iface) := by
    constructor
    · exact addIfaceDedup_nodup fresh iface (by simp [hfresh.1])
    · rw [addIfaceDedup_pid]
      exact hfresh.2
  constructor
  · by_cases hk : key ∈ groups.map Prod.fst
    · rw [addToGroup_keys_mem groups key fresh iface hk]
      exact hg.1
    · rw [addToGroup_keys_not_mem groups key fresh iface hk]
      simp [List.nodup_append, hg.1, hk]
  · intro e he
    refine ⟨?_, ?_⟩
    · exact addToGroup_values groups key fresh iface
        (fun d => (d.interfaces.map Interface.path).Nodup)
        (fun d d' _ _ hn => hn) (fun e he => (hg.2 e he).1)
        (fun e he => (hg.2 e he).1) hfreshOk.1 e he
    · exact addToGroup_values groups key fresh iface
        (fun d => (RAZER_DEVICES.map Prod.fst).contains d.pid = true)
        (fun d d' hP hpid _ => by show _ = true; rw [hpid]; exact hP) (fun e he => (hg.2 e he).2)
        (fun e he => (hg.2 e he).1) hfreshOk.2 e he

theorem scanStep_groupsOk (groups : List (ScanKey × Descriptor)) (dev : HidEntry)
    (hg : GroupsOk groups)
    (hdev : ∀ pid, dev.product_id = some pid →
      (RAZER_DEVICES.map Prod.fst).contains pid = true) :
    GroupsOk (scanStep groups dev) := by
  unfold scanStep
  rcases hpid : dev.product_id with _ | pid
  · exact hg
  · rcases hpath : dev.path with _ | path
    · exact hg
    · exact addToGroup_groupsOk _ _ _ _ hg ⟨rfl, hdev pid hpid⟩

theorem foldl_scanStep_groupsOk (l : List HidEntry)
    (hl : ∀ dev ∈ l, ∀ pid, dev.product_id = some pid →
      (RAZER_DEVICES.map Prod.fst).contains pid = true) :
    ∀ (groups : List (ScanKey × Descriptor)), GroupsOk groups →
      GroupsOk (l.foldl scanStep groups) := by
  induction l with
  | nil => exact fun groups hg => hg
  | cons dev t ih =>
    intro groups hg
    rw [List.foldl_cons]
    exact ih (fun e he pid h => hl e (by simp [he]) pid h) _
      (scanStep_groupsOk groups dev hg (hl dev (by simp)))

theorem scanGroups_groupsOk (entries : List HidEntry) : GroupsOk (scanGroups entries) := by
  unfold scanGroups
  apply foldl_scanStep_groupsOk
  · intro dev hdev pid hpid
    unfold registryFilter at hdev
    have := (List.mem_filter.mp hdev).2
    rw [hpid] at this
    simpa using this
  · exact ⟨List.nodup_nil, by simp⟩

theorem scanStep_no_path (groups : List (ScanKey × Descriptor)) (dev : HidEntry)
    (h : dev.path = none) : scanStep groups dev = groups := by
  unfold scanStep
  rcases hpid : dev.product_id with _ | pid
  · rfl
  · rw [h]

theorem foldl_scanStep_filter_path (l : List HidEntry) :
    ∀ (groups : List (ScanKey × Descriptor)),
    l.foldl scanStep groups = (l.filter (fun e => e.path.isSome)).foldl scanStep groups := by
  induction l with
  | nil => intro groups; rfl
  | cons dev t ih =>
    intro groups
    rcases hpath : dev.path with _ | path
    · rw [List.foldl_cons, scanStep_no_path groups dev hpath,
        List.filter_cons_of_neg (by simp [hpath])]
      exact ih groups
    · rw [List.foldl_cons, List.filter_cons_of_pos (by simp [hpath]), List.foldl_cons]
      exact ih (scanStep groups dev)

theorem registryFilter_filter_path (entries : List HidEntry) :
    registryFilter (entries.filter (fun e => e.path.isSome)) =
      (registryFilter entries).filter (fun e => e.path.isSome) := by
  unfold registryFilter
  rw [List.filter_filter, List.filter_filter]
  congr 1
  funext e
  exact Bool.and_comm _ _

theorem scanGroups_filter_path (entries : List HidEntry) :
    scanGroups entries = scanGroups (entries.filter (fun e => e.path.isSome)) := by
  unfold scanGroups
  rw [registryFilter_filter_path, ← foldl_scanStep_filter_path]

/-- C8: `scan_razer_devices` returns the empty list when HID enumeration
fails (modelled as `none`); every returned descriptor's product id is in the
device registry; the grouped association list has one entry per
(serial, product string, product id) key; no descriptor's interface list
contains two entries with the same raw path; and entries without a path
(`KeyError` on `dev['path']`) are skipped without affecting any other entry. -/
theorem scan_razer_devices_spec (entries : List HidEntry) (d : Descriptor) :
    scan_razer_devices none = [] ∧
    (d ∈ scan_razer_devices (some entries) →
      (RAZER_DEVICES.map Prod.fst).contains d.pid = true) ∧
    ((scanGroups entries).map Prod.fst).Nodup ∧
    (d ∈ scan_razer_devices (some entries) →
      (d.interfaces.map Interface.path).Nodup) ∧
    scan_razer_devices (some entries) =
      scan_razer_devices (some (entries.filter (fun e => e.path.isSome))) := by
  have hok := scanGroups_groupsOk entries
  refine ⟨rfl, ?_, hok.1, ?_, ?_⟩
  · intro hd
    obtain ⟨e, he, hed⟩ := List.mem_map.mp hd
    exact hed ▸ (hok.2 e he).2
  · intro hd
    obtain ⟨e, he, hed⟩ := List.mem_map.mp hd
    exact hed ▸ (hok.2 e he).1
  · show (scanGroups entries).map Prod.snd = _
    rw [scanGroups_filter_path]
    rfl

/-- C8 witness: the scan of `c8Entries` yields one descriptor whose pid is
registered and whose interface paths are deduplicated. -/
theorem scan_razer_devices_spec_witness :
    (RAZER_DEVICES.map Prod.fst).contains
      ((scan_razer_devices (some c8Entries)).getD 0 {}).pid = true ∧
    ((((scan_razer_devices (some c8Entries)).getD 0 {}).interfaces.map
      Interface.path)).Nodup := by
  have h := scan_razer_devices_spec c8Entries
    ((scan_razer_devices (some c8Entries)).getD 0 {})
  have hmem : (scan_razer_devices (some c8Entries)).getD 0 {} ∈
      scan_razer_devices (some c8Entries) := by decide
  exact ⟨h.2.1 hmem, h.2.2.2.1 hmem⟩

end Razer
